import Mathlib

/-!
Shallow embedding of the gtworld-r world-snapshot decoder (src/lib.rs) and
proofs about it.

Modelling conventions:
- Machine integers (u8/u16/u32) are Nat; wrapping casts are explicit (% 2^w).
- The binary cursor is forward-only in the source (reads and relative skips
  only), so it is embedded as the remaining byte suffix (a List Nat).
- f32 fields are kept as their raw little-endian 32-bit patterns (the decoder
  never interprets them numerically).
- i32 fields are converted to Int exactly as a twos-complement read would.
- Rust String fields produced by String::from_utf8_lossy are kept as the raw
  byte lists read from the wire; the lossy UTF-8 presentation is irrelevant to
  every property proved here.
- Fallible reads return Except Err. A read performed with .unwrap() in the
  source aborts the process instead of returning an error value; this outcome
  is modelled by the distinguished result Err.panicked, which is threaded
  around the error-flag handler exactly as an unwinding panic would be.
- The external collaborators (the gtitem item database and the ciborium
  generic decoder) are parameters, bundled in the Ext structure.
-/

/-- Failure outcomes of the decoder. All constructors except panicked model a
returned anyhow error value; panicked models a Rust panic from .unwrap(). -/
inductive Err where
  | truncated
  | unsupportedVersion
  | oversizedTileCount
  | invalidItemId
  | itemNotFound
  | payloadDecode
  | tileIndexOutOfBounds
  | panicked
  deriving DecidableEq, Repr

/-- The remaining input, little-endian byte list. -/
abbrev Bytes := List Nat

/-- Models Cursor::read_u8 via byteorder: one byte or a truncation error. -/
def readU8 : Bytes → Except Err (Nat × Bytes)
  | [] => .error .truncated
  | b :: rest => .ok (b, rest)

/-- Models read_u16::LittleEndian. -/
def readU16 : Bytes → Except Err (Nat × Bytes)
  | b0 :: b1 :: rest => .ok (b0 + 256 * b1, rest)
  | _ => .error .truncated

/-- Models read_u32::LittleEndian. -/
def readU32 : Bytes → Except Err (Nat × Bytes)
  | b0 :: b1 :: b2 :: b3 :: rest =>
      .ok (b0 + 256 * b1 + 65536 * b2 + 16777216 * b3, rest)
  | _ => .error .truncated

/-- Models read_f32::LittleEndian; the value is the raw 32-bit pattern. -/
def readF32 : Bytes → Except Err (Nat × Bytes)
  | b0 :: b1 :: b2 :: b3 :: rest =>
      .ok (b0 + 256 * b1 + 65536 * b2 + 16777216 * b3, rest)
  | _ => .error .truncated

/-- Models read_i32::LittleEndian, twos-complement. -/
def readI32 : Bytes → Except Err (Int × Bytes)
  | b0 :: b1 :: b2 :: b3 :: rest =>
      let n := b0 + 256 * b1 + 65536 * b2 + 16777216 * b3
      .ok (if n < 2147483648 then (n : Int) else (n : Int) - 4294967296, rest)
  | _ => .error .truncated

/-- Models read_exact into an n-byte buffer. -/
def readBytes (n : Nat) (bs : Bytes) : Except Err (Bytes × Bytes) :=
  if n ≤ bs.length then .ok (bs.take n, bs.drop n) else .error .truncated

/-- Models data.set_position(data.position() + n); never fails by itself. -/
def skip (n : Nat) (bs : Bytes) : Bytes := bs.drop n

/-- A failed read wrapped in .unwrap() aborts (panics) instead of returning
the error value. -/
def orAbort : Except Err α → Except Err α
  | .ok a => .ok a
  | .error _ => .error .panicked

def readU8x (bs : Bytes) : Except Err (Nat × Bytes) := orAbort (readU8 bs)
def readU16x (bs : Bytes) : Except Err (Nat × Bytes) := orAbort (readU16 bs)
def readU32x (bs : Bytes) : Except Err (Nat × Bytes) := orAbort (readU32 bs)
def readI32x (bs : Bytes) : Except Err (Int × Bytes) := orAbort (readI32 bs)
def readBytesx (n : Nat) (bs : Bytes) : Except Err (Bytes × Bytes) :=
  orAbort (readBytes n bs)

/-- A u16 length prefix followed by that many raw bytes, the recurring
length-prefixed text shape, with error-returning reads. -/
def readStr (bs : Bytes) : Except Err (Bytes × Bytes) := do
  let (n, bs) ← readU16 bs
  readBytes n bs

/-- The same shape read through .unwrap() calls. -/
def readStrx (bs : Bytes) : Except Err (Bytes × Bytes) := do
  let (n, bs) ← readU16x bs
  readBytesx n bs

/-- Reads n records with the element reader f, as the for-loops over a count
field do in the source. -/
def readListN (f : Bytes → Except Err (α × Bytes)) :
    Nat → Bytes → Except Err (List α × Bytes)
  | 0, bs => .ok ([], bs)
  | n + 1, bs => do
    let (a, bs) ← f bs
    let (as, bs) ← readListN f n bs
    .ok (a :: as, bs)

/-! ## TileFlags (bitflags! block, src/lib.rs lines 39-59) -/

structure TileFlags where
  bits : Nat
  deriving DecidableEq, Repr

namespace TileFlags

def HAS_EXTRA_DATA : TileFlags := ⟨0x01⟩
def HAS_PARENT : TileFlags := ⟨0x02⟩
def WAS_SPLICED : TileFlags := ⟨0x04⟩
def WILL_SPAWN_SEEDS_TOO : TileFlags := ⟨0x08⟩
def IS_SEEDLING : TileFlags := ⟨0x10⟩
def FLIPPED_X : TileFlags := ⟨0x20⟩
def IS_ON : TileFlags := ⟨0x40⟩
def IS_OPEN_TO_PUBLIC : TileFlags := ⟨0x80⟩
def BG_IS_ON : TileFlags := ⟨0x100⟩
def FG_ALT_MODE : TileFlags := ⟨0x200⟩
def IS_WET : TileFlags := ⟨0x400⟩
def GLUED : TileFlags := ⟨0x800⟩
def ON_FIRE : TileFlags := ⟨0x1000⟩
def PAINTED_RED : TileFlags := ⟨0x2000⟩
def PAINTED_GREEN : TileFlags := ⟨0x4000⟩
def PAINTED_BLUE : TileFlags := ⟨0x8000⟩

/-- bitflags all(): the union of every defined flag. -/
def all : TileFlags :=
  ⟨HAS_EXTRA_DATA.bits ||| HAS_PARENT.bits ||| WAS_SPLICED.bits |||
   WILL_SPAWN_SEEDS_TOO.bits ||| IS_SEEDLING.bits ||| FLIPPED_X.bits |||
   IS_ON.bits ||| IS_OPEN_TO_PUBLIC.bits ||| BG_IS_ON.bits |||
   FG_ALT_MODE.bits ||| IS_WET.bits ||| GLUED.bits ||| ON_FIRE.bits |||
   PAINTED_RED.bits ||| PAINTED_GREEN.bits ||| PAINTED_BLUE.bits⟩

def empty : TileFlags := ⟨0⟩

/-- bitflags from_bits_truncate: keep the defined bits. -/
def from_bits_truncate (v : Nat) : TileFlags := ⟨v &&& all.bits⟩

/-- bitflags from_bits: reject inputs with undefined bits. -/
def from_bits (v : Nat) : Option TileFlags :=
  if v &&& all.bits = v then some ⟨v⟩ else none

/-- bitflags bits(): the 16-bit encoding. -/
def to_bits (f : TileFlags) : Nat := f.bits

/-- bitflags contains: all bits of the argument are set. -/
def contains (f other : TileFlags) : Bool := f.bits &&& other.bits == other.bits

end TileFlags

/-! ## WeatherType (src/lib.rs lines 61-230) -/

inductive WeatherType where
  | Default | Sunset | Night | Desert | Sunny | RainyCity | Harvest | Mars
  | Spooky | Maw | Blank | Snowy | Growch | GrowchHappy | Undersea | Warp
  | Comet | Comet2 | Party | Pineapple | SnowyNight | Spring | Wolf
  | NotInitialized | PurpleHaze | FireHaze | GreenHaze | AquaHaze | CustomHaze
  | CustomItems | Pagoda | Apocalypse | Jungle | BalloonWarz | Background
  | Autumn | Hearth | StPatricks | IceAge | Volcano | FloatingIslands | Mascot
  | DigitalRain | MonoChrome | Treasure | Surgery | Bountiful | Meteor | Stars
  | Ascended | Destroyed | GrowtopiaSign | Dungeon | LegendaryCity
  | BloodDragon | PopCity | Anzu | TmntCity | RadCity | Plaze | Nebula
  | ProtoStar | DarkMountains | Ac15 | MountGrowMore | CrackInReality
  | LnyNian | RaymanLock | Steampunk | RealmOfSpirits | Blackhole | Gems
  | HolidayHaven | FenyxLock | EnchantedLock | RoyalEnchantedLock
  | NeptunesAtlantis | PinuskiPetalPerfectHaven | Candyland
  deriving DecidableEq, Repr

/-- impl From u16 for WeatherType: the closed id mapping, out-of-range values
fold to Default. -/
def WeatherType.fromU16 : Nat → WeatherType
  | 0 => .Default
  | 1 => .Sunset
  | 2 => .Night
  | 3 => .Desert
  | 4 => .Sunny
  | 5 => .RainyCity
  | 6 => .Harvest
  | 7 => .Mars
  | 8 => .Spooky
  | 9 => .Maw
  | 10 => .Blank
  | 11 => .Snowy
  | 12 => .Growch
  | 13 => .GrowchHappy
  | 14 => .Undersea
  | 15 => .Warp
  | 16 => .Comet
  | 17 => .Comet2
  | 18 => .Party
  | 19 => .Pineapple
  | 20 => .SnowyNight
  | 21 => .Spring
  | 22 => .Wolf
  | 23 => .NotInitialized
  | 24 => .PurpleHaze
  | 25 => .FireHaze
  | 26 => .GreenHaze
  | 27 => .AquaHaze
  | 28 => .CustomHaze
  | 29 => .CustomItems
  | 30 => .Pagoda
  | 31 => .Apocalypse
  | 32 => .Jungle
  | 33 => .BalloonWarz
  | 34 => .Background
  | 35 => .Autumn
  | 36 => .Hearth
  | 37 => .StPatricks
  | 38 => .IceAge
  | 39 => .Volcano
  | 40 => .FloatingIslands
  | 41 => .Mascot
  | 42 => .DigitalRain
  | 43 => .MonoChrome
  | 44 => .Treasure
  | 45 => .Surgery
  | 46 => .Bountiful
  | 47 => .Meteor
  | 48 => .Stars
  | 49 => .Ascended
  | 50 => .Destroyed
  | 51 => .GrowtopiaSign
  | 52 => .Dungeon
  | 53 => .LegendaryCity
  | 54 => .BloodDragon
  | 55 => .PopCity
  | 56 => .Anzu
  | 57 => .TmntCity
  | 58 => .RadCity
  | 59 => .Plaze
  | 60 => .Nebula
  | 61 => .ProtoStar
  | 62 => .DarkMountains
  | 63 => .Ac15
  | 64 => .MountGrowMore
  | 65 => .CrackInReality
  | 66 => .LnyNian
  | 67 => .RaymanLock
  | 68 => .Steampunk
  | 69 => .RealmOfSpirits
  | 70 => .Blackhole
  | 71 => .Gems
  | 72 => .HolidayHaven
  | 73 => .FenyxLock
  | 74 => .EnchantedLock
  | 75 => .RoyalEnchantedLock
  | 76 => .NeptunesAtlantis
  | 77 => .PinuskiPetalPerfectHaven
  | 78 => .Candyland
  | _ => .Default

/-! ## External collaborators (gtitem ItemDatabase, ciborium) -/

/-- The fields of a gtitem item record that the decoder consults. -/
structure ItemInfo where
  grow_time : Nat
  file_name : String
  deriving Repr

/-- The external read-only item catalog: get_item lookup plus item_count. -/
structure ItemDatabase where
  item_count : Nat
  get_item : Nat → Option ItemInfo

/-- Payload of the PetBattleCage typed generic-decode block. -/
structure PetBattleCageExtra where
  damage : Nat
  pet : List Nat
  deriving DecidableEq, Repr

/-- The external collaborators bundled: the item database, the outcome of a
ciborium Value decode of a byte block, and the outcome of the typed
PetBattleCageExtra decode of a byte block. -/
structure ExtDeps where
  db : ItemDatabase
  cborValueOk : Bytes → Bool
  cborPetDec : Bytes → Option PetBattleCageExtra

/-! ## Variant payload record types (src/lib.rs lines 232-611) -/

structure FishInfo where
  fish_item_id : Nat
  lbs : Nat
  deriving DecidableEq, Repr

structure SilkWormColor where
  a : Nat
  r : Nat
  g : Nat
  b : Nat
  deriving DecidableEq, Repr

structure StorageBlockItemInfo where
  id : Nat
  amount : Nat
  deriving DecidableEq, Repr

structure CookingOvenIngredientInfo where
  item_id : Nat
  time_added : Nat
  deriving DecidableEq, Repr

structure CyBotCommandData where
  command_id : Nat
  is_command_used : Nat
  deriving DecidableEq, Repr

/-- TileType: the closed tagged union of per-tile variant payloads. Text
fields hold the raw bytes read from the wire; elapsed fields hold whole
seconds (Duration::from_secs of the u32 counter). -/
inductive TileType where
  | Basic
  | Door (text : Bytes) (owner_uid : Nat)
  | Sign (text : Bytes) (flags : Nat)
  | Lock (settings : Nat) (owner_uid : Nat) (access_count : Nat)
      (access_uids : List Nat) (minimum_level : Nat)
  | Seed (time_passed : Nat) (item_on_tree : Nat) (ready_to_harvest : Bool)
      (elapsed : Nat)
  | Mailbox (unknown_1 : Bytes) (unknown_2 : Bytes) (unknown_3 : Bytes)
      (unknown_4 : Nat)
  | Bulletin (unknown_1 : Bytes) (unknown_2 : Bytes) (unknown_3 : Bytes)
      (unknown_4 : Nat)
  | Dice (symbol : Nat)
  | ChemicalSource (time_passed : Nat) (ready_to_harvest : Bool)
      (elapsed : Nat)
  | AchievementBlock (unknown_1 : Nat) (tile_type : Nat)
  | HearthMonitor (unknown_1 : Nat) (player_name : Bytes)
  | DonationBox (unknown_1 : Bytes) (unknown_2 : Bytes) (unknown_3 : Bytes)
      (unknown_4 : Nat)
  | Mannequin (text : Bytes) (unknown_1 : Nat) (clothing_1 : Nat)
      (clothing_2 : Nat) (clothing_3 : Nat) (clothing_4 : Nat)
      (clothing_5 : Nat) (clothing_6 : Nat) (clothing_7 : Nat)
      (clothing_8 : Nat) (clothing_9 : Nat) (clothing_10 : Nat)
  | BunnyEgg (egg_placed : Nat)
  | GamePack (team : Nat)
  | GameGenerator
  | XenoniteCrystal (unknown_1 : Nat) (unknown_2 : Nat)
  | PhoneBooth (clothing_1 : Nat) (clothing_2 : Nat) (clothing_3 : Nat)
      (clothing_4 : Nat) (clothing_5 : Nat) (clothing_6 : Nat)
      (clothing_7 : Nat) (clothing_8 : Nat) (clothing_9 : Nat)
  | Crystal (unknown_1 : Bytes)
  | CrimeInProgress (unknown_1 : Bytes) (unknown_2 : Nat) (unknown_3 : Nat)
  | DisplayBlock (item_id : Nat)
  | VendingMachine (item_id : Nat) (price : Int)
  | GivingTree (unknown_1 : Nat) (unknown_2 : Nat)
  | CountryFlag (country : Bytes)
  | WeatherMachine (settings : Nat)
  | DataBedrock
  | Spotlight
  | FishTankPort (flags : Nat) (fishes : List FishInfo)
  | SolarCollector (unknown_1 : Bytes)
  | Forge (temperature : Nat)
  | SteamOrgan (instrument_type : Nat) (note : Nat)
  | SilkWorm (type_ : Nat) (name : Bytes) (age : Nat) (unknown_1 : Nat)
      (unknown_2 : Nat) (can_be_fed : Nat) (color : SilkWormColor)
      (sick_duration : Nat)
  | SewingMachine (bolt_id_list : List Nat)
  | LobsterTrap
  | PaintingEasel (item_id : Nat) (label : Bytes)
  | PetBattleCage (label : Bytes) (unknown_1 : Bytes)
      (extra : PetBattleCageExtra)
  | PetTrainer (name : Bytes) (pet_total_count : Nat) (unknown_1 : Nat)
      (pets_id : List Nat)
  | SteamEngine (temperature : Nat)
  | LockBot (time_passed : Nat)
  | SpiritStorageUnit (ghost_jar_count : Nat)
  | Shelf (top_left_item_id : Nat) (top_right_item_id : Nat)
      (bottom_left_item_id : Nat) (bottom_right_item_id : Nat)
  | VipEntrance (unknown_1 : Nat) (owner_uid : Nat) (access_uids : List Nat)
  | ChallangeTimer
  | FishWallMount (label : Bytes) (item_id : Nat) (lb : Nat)
  | Portrait (label : Bytes) (unknown_1 : Nat) (unknown_2 : Nat)
      (unknown_3 : Nat) (unknown_4 : Nat) (face : Nat) (hat : Nat)
      (hair : Nat) (unknown_5 : Nat) (unknown_6 : Nat)
  | GuildWeatherMachine (unknown_1 : Nat) (gravity : Nat) (flags : Nat)
  | FossilPrepStation (unknown_1 : Nat)
  | DnaExtractor
  | Howler
  | ChemsynthTank (current_chem : Nat) (target_chem : Nat)
  | StorageBlock (items : List StorageBlockItemInfo)
  | CookingOven (temperature_level : Nat)
      (ingredients : List CookingOvenIngredientInfo) (unknown_1 : Nat)
      (unknown_2 : Nat) (unknown_3 : Nat)
  | AudioRack (note : Bytes) (volume : Nat)
  | GeigerCharger (unknown_1 : Nat)
  | AdventureBegins
  | TombRobber
  | BalloonOMatic (total_rarity : Nat) (team_type : Nat)
  | TrainingPort (fish_lb : Nat) (fish_status : Nat) (fish_id : Nat)
      (fish_total_exp : Nat) (fish_level : Nat) (unknown_2 : Nat)
  | ItemSucker (item_id_to_suck : Nat) (item_amount : Nat) (flags : Nat)
      (limit : Nat)
  | CyBot (sync_timer : Nat) (activated : Nat)
      (command_datas : List CyBotCommandData)
  | GuildItem
  | Growscan (unknown_1 : Nat)
  | ContainmentFieldPowerNode (ghost_jar_count : Nat) (unknown_1 : List Nat)
  | SpiritBoard (unknown_1 : Nat) (unknown_2 : Nat) (unknown_3 : Nat)
  | StormyCloud (sting_duration : Nat) (is_solid : Nat)
      (non_solid_duration : Nat)
  | TemporaryPlatform (unknown_1 : Nat)
  | SafeVault
  | AngelicCountingCloud (is_raffling : Nat) (unknown_1 : Nat)
      (ascii_code : Nat)
  | InfinityWeatherMachine (interval_minutes : Nat)
      (weather_machine_list : List Nat)
  | PineappleGuzzler
  | KrakenGalaticBlock (pattern_index : Nat) (unknown_1 : Nat) (r : Nat)
      (g : Nat) (b : Nat)
  | FriendsEntrance (owner_user_id : Nat) (unknown_1 : Nat) (unknown_2 : Nat)
  | TesseractManipulator (gems : Nat) (unknown_2 : Nat) (item_id : Nat)
      (unknown_4 : Nat)
  deriving Repr

/-! ## Tile, Dropped, World (src/lib.rs lines 9-37, 580-611) -/

structure Tile where
  foreground_item_id : Nat
  background_item_id : Nat
  parent_block_index : Nat
  flags_number : Nat
  flags : TileFlags
  x : Nat
  y : Nat
  tile_type : TileType
  deriving Repr

/-- DroppedItem: x and y hold the raw f32 bit patterns. -/
structure DroppedItem where
  id : Nat
  count : Nat
  flags : Nat
  uid : Nat
  x : Nat
  y : Nat
  deriving DecidableEq, Repr

structure Dropped where
  items_count : Nat
  last_dropped_item_uid : Nat
  items : List DroppedItem
  deriving Repr

structure World where
  name : Bytes
  width : Nat
  height : Nat
  tile_count : Nat
  tiles : List Tile
  dropped : Dropped
  base_weather : WeatherType
  current_weather : WeatherType
  is_error : Bool
  version : Nat
  flags : Nat
  deriving Repr

/-- Tile::new. -/
def Tile.new (foreground_item_id background_item_id parent_block_index : Nat)
    (flags : TileFlags) (flags_number x y : Nat) : Tile :=
  { foreground_item_id, background_item_id, parent_block_index, flags,
    flags_number, x, y, tile_type := .Basic }

/-- World::new via WorldBuilder::new().build(): the empty EXIT placeholder
world (name is the UTF-8 of EXIT). -/
def World.new : World :=
  { name := [69, 88, 73, 84], width := 0, height := 0, tile_count := 0,
    tiles := [], dropped := ⟨0, 0, []⟩, base_weather := .Default,
    current_weather := .Default, is_error := false, version := 0, flags := 0 }

/-- World::reset: version and flags are left untouched by the source. -/
def World.reset (w : World) : World :=
  { w with
      name := [69, 88, 73, 84],
      width := 0,
      height := 0,
      tile_count := 0,
      tiles := [],
      dropped := ⟨0, 0, []⟩,
      base_weather := .Default,
      current_weather := .Default,
      is_error := false }

/-- World::get_tile. The index is the u32 expression y*width+x, hence the
wrap at 2^32. -/
def World.get_tile (w : World) (x y : Nat) : Option Tile :=
  if x ≥ w.width ∨ y ≥ w.height then none
  else w.tiles.get? ((y * w.width + x) % 4294967296)

/-- World::get_tile_mut returns a mutable borrow of the same element; the
lookup logic is identical to get_tile. -/
def World.get_tile_mut (w : World) (x y : Nat) : Option Tile :=
  if x ≥ w.width ∨ y ≥ w.height then none
  else w.tiles.get? ((y * w.width + x) % 4294967296)

/-- World::tile_index. -/
def World.tile_index (w : World) (x y : Nat) : Option Nat :=
  if x ≥ w.width ∨ y ≥ w.height then none
  else some ((y * w.width + x) % 4294967296)

/-! ## Variant dispatch: World::get_extra_tile_data (src/lib.rs 1046-1939).
The source method takes &self but never reads World state, so it is embedded
as a plain function of the collaborators, the tile and the cursor. -/

/-- One FishTankPort record (two u32 reads through .unwrap()). -/
def readFishInfo (bs : Bytes) : Except Err (FishInfo × Bytes) := do
  let (fish_item_id, bs) ← readU32x bs
  let (lbs, bs) ← readU32x bs
  .ok ({ fish_item_id, lbs }, bs)

/-- One StorageBlock record: skip 3, u32 id, skip 2, u32 amount. -/
def readStorageItem (bs : Bytes) : Except Err (StorageBlockItemInfo × Bytes) := do
  let bs := skip 3 bs
  let (id, bs) ← readU32x bs
  let bs := skip 2 bs
  let (amount, bs) ← readU32x bs
  .ok ({ id, amount }, bs)

/-- One CookingOven ingredient record. -/
def readCookingIngredient (bs : Bytes) :
    Except Err (CookingOvenIngredientInfo × Bytes) := do
  let (item_id, bs) ← readU32x bs
  let (time_added, bs) ← readU32x bs
  .ok ({ item_id, time_added }, bs)

/-- One CyBot command record: u32, u32, then a 7-byte skip. -/
def readCyBotCommand (bs : Bytes) : Except Err (CyBotCommandData × Bytes) := do
  let (command_id, bs) ← readU32x bs
  let (is_command_used, bs) ← readU32x bs
  let bs := skip 7 bs
  .ok ({ command_id, is_command_used }, bs)

def getExtraTileData (ext : ExtDeps) (tile : Tile) (bs : Bytes)
    (item_type : Nat) : Except Err (Tile × Bytes) :=
  match item_type with
  | 1 => do
    let (text, bs) ← readStr bs
    let (flags, bs) ← readU8 bs
    .ok ({ tile with tile_type := .Sign text flags }, bs)
  | 2 => do
    let (text, bs) ← readStr bs
    let (owner_uid, bs) ← readU32 bs
    .ok ({ tile with tile_type := .Door text owner_uid }, bs)
  | 3 => do
    let (settings, bs) ← readU8 bs
    let (owner_uid, bs) ← readU32 bs
    let (access_count, bs) ← readU32 bs
    let (access_uids, bs) ← readListN readU32 access_count bs
    let (minimum_level, bs) ← readU8 bs
    let (_, bs) ← readBytes 7 bs
    let bs := if tile.foreground_item_id == 5814 then skip 16 bs else bs
    .ok ({ tile with
            tile_type := .Lock settings owner_uid access_count access_uids
              minimum_level }, bs)
  | 4 => do
    let (time_passed, bs) ← readU32 bs
    let (item_on_tree, bs) ← readU8 bs
    match ext.db.get_item tile.foreground_item_id with
    | none => .error .itemNotFound
    | some item =>
      let ready_to_harvest := decide (item.grow_time ≤ time_passed)
      .ok ({ tile with
              tile_type := .Seed time_passed item_on_tree ready_to_harvest
                time_passed }, bs)
  | 6 => do
    let (unknown_1, bs) ← readStrx bs
    let (unknown_2, bs) ← readStrx bs
    let (unknown_3, bs) ← readStrx bs
    let (unknown_4, bs) ← readU8x bs
    .ok ({ tile with
            tile_type := .Mailbox unknown_1 unknown_2 unknown_3 unknown_4 },
      bs)
  | 7 => do
    let (unknown_1, bs) ← readStrx bs
    let (unknown_2, bs) ← readStrx bs
    let (unknown_3, bs) ← readStrx bs
    let (unknown_4, bs) ← readU8x bs
    .ok ({ tile with
            tile_type := .Bulletin unknown_1 unknown_2 unknown_3 unknown_4 },
      bs)
  | 8 => do
    let (symbol, bs) ← readU8x bs
    .ok ({ tile with tile_type := .Dice symbol }, bs)
  | 9 => do
    let (time_passed, bs) ← readU32 bs
    match ext.db.get_item tile.foreground_item_id with
    | none => .error .itemNotFound
    | some item =>
      let ready_to_harvest := decide (time_passed ≥ item.grow_time)
      .ok ({ tile with
              tile_type := .ChemicalSource time_passed ready_to_harvest
                time_passed }, bs)
  | 10 => do
    let (unknown_1, bs) ← readU32x bs
    let (tt, bs) ← readU8x bs
    .ok ({ tile with tile_type := .AchievementBlock unknown_1 tt }, bs)
  | 11 => do
    let (unknown_1, bs) ← readU32x bs
    let (player_name, bs) ← readStrx bs
    .ok ({ tile with tile_type := .HearthMonitor unknown_1 player_name }, bs)
  | 12 => do
    let (unknown_1, bs) ← readStrx bs
    let (unknown_2, bs) ← readStrx bs
    let (unknown_3, bs) ← readStrx bs
    let (unknown_4, bs) ← readU8x bs
    .ok ({ tile with
            tile_type := .DonationBox unknown_1 unknown_2 unknown_3
              unknown_4 }, bs)
  | 14 => do
    let (text, bs) ← readStrx bs
    let (unknown_1, bs) ← readU8x bs
    let (c1, bs) ← readU32x bs
    let (c2, bs) ← readU16x bs
    let (c3, bs) ← readU16x bs
    let (c4, bs) ← readU16x bs
    let (c5, bs) ← readU16x bs
    let (c6, bs) ← readU16x bs
    let (c7, bs) ← readU16x bs
    let (c8, bs) ← readU16x bs
    let (c9, bs) ← readU16x bs
    let (c10, bs) ← readU16x bs
    .ok ({ tile with
            tile_type := .Mannequin text unknown_1 c1 c2 c3 c4 c5 c6 c7 c8 c9
              c10 }, bs)
  | 15 => do
    let (egg_placed, bs) ← readU32x bs
    .ok ({ tile with tile_type := .BunnyEgg egg_placed }, bs)
  | 16 => do
    let (team, bs) ← readU8x bs
    .ok ({ tile with tile_type := .GamePack team }, bs)
  | 17 => .ok ({ tile with tile_type := .GameGenerator }, bs)
  | 18 => do
    let (unknown_1, bs) ← readU8x bs
    let (unknown_2, bs) ← readU32x bs
    .ok ({ tile with tile_type := .XenoniteCrystal unknown_1 unknown_2 }, bs)
  | 19 => do
    let (c1, bs) ← readU16x bs
    let (c2, bs) ← readU16x bs
    let (c3, bs) ← readU16x bs
    let (c4, bs) ← readU16x bs
    let (c5, bs) ← readU16x bs
    let (c6, bs) ← readU16x bs
    let (c7, bs) ← readU16x bs
    let (c8, bs) ← readU16x bs
    let (c9, bs) ← readU16x bs
    .ok ({ tile with
            tile_type := .PhoneBooth c1 c2 c3 c4 c5 c6 c7 c8 c9 }, bs)
  | 20 => do
    let (unknown_1, bs) ← readStrx bs
    .ok ({ tile with tile_type := .Crystal unknown_1 }, bs)
  | 21 => do
    let (unknown_1, bs) ← readStrx bs
    let (unknown_2, bs) ← readU32x bs
    let (unknown_3, bs) ← readU8x bs
    .ok ({ tile with
            tile_type := .CrimeInProgress unknown_1 unknown_2 unknown_3 }, bs)
  | 23 => do
    let (item_id, bs) ← readU32x bs
    .ok ({ tile with tile_type := .DisplayBlock item_id }, bs)
  | 24 => do
    let (item_id, bs) ← readU32x bs
    let (price, bs) ← readI32x bs
    .ok ({ tile with tile_type := .VendingMachine item_id price }, bs)
  | 25 => do
    let (flags, bs) ← readU8x bs
    let (fish_count, bs) ← readU32x bs
    let (fishes, bs) ← readListN readFishInfo (fish_count / 2) bs
    .ok ({ tile with tile_type := .FishTankPort flags fishes }, bs)
  | 26 => do
    let (unknown_1, bs) ← readBytesx 5 bs
    .ok ({ tile with tile_type := .SolarCollector unknown_1 }, bs)
  | 27 => do
    let (temperature, bs) ← readU32x bs
    .ok ({ tile with tile_type := .Forge temperature }, bs)
  | 28 => do
    let (unknown_1, bs) ← readU16x bs
    let (unknown_2, bs) ← readU32x bs
    .ok ({ tile with tile_type := .GivingTree unknown_1 unknown_2 }, bs)
  | 30 => do
    let (instrument_type, bs) ← readU8x bs
    let (note, bs) ← readU32x bs
    .ok ({ tile with tile_type := .SteamOrgan instrument_type note }, bs)
  | 31 => do
    let (type_, bs) ← readU8x bs
    let (name, bs) ← readStrx bs
    let (age, bs) ← readU32x bs
    let (unknown_1, bs) ← readU32x bs
    let (unknown_2, bs) ← readU32x bs
    let (can_be_fed, bs) ← readU8x bs
    let (color, bs) ← readU32x bs
    let (sick_duration, bs) ← readU32x bs
    let col : SilkWormColor :=
      { a := (color >>> 24) % 256, r := (color >>> 16) &&& 255,
        g := (color >>> 8) &&& 255, b := color &&& 255 }
    .ok ({ tile with
            tile_type := .SilkWorm type_ name age unknown_1 unknown_2
              can_be_fed col sick_duration }, bs)
  | 32 => do
    let (bolt_len, bs) ← readU16x bs
    let (bolt_id_list, bs) ← readListN readU32x bolt_len bs
    .ok ({ tile with tile_type := .SewingMachine bolt_id_list }, bs)
  | 33 => do
    let (country, bs) ← readStrx bs
    .ok ({ tile with tile_type := .CountryFlag country }, bs)
  | 34 => .ok ({ tile with tile_type := .LobsterTrap }, bs)
  | 35 => do
    let (item_id, bs) ← readU32x bs
    let (label, bs) ← readStrx bs
    .ok ({ tile with tile_type := .PaintingEasel item_id label }, bs)
  | 36 => do
    let (label, bs) ← readStrx bs
    let (unknown_1, bs) ← readBytesx 12 bs
    let (cbor_size, bs) ← readU32x bs
    let (cbor_raw, bs) ← readBytesx cbor_size bs
    match ext.cborPetDec cbor_raw with
    | none => .error .payloadDecode
    | some extra =>
      .ok ({ tile with tile_type := .PetBattleCage label unknown_1 extra }, bs)
  | 37 => do
    let (name, bs) ← readStrx bs
    let (pet_total_count, bs) ← readU32x bs
    let (unknown_1, bs) ← readU32x bs
    let (pets_id, bs) ← readListN readU32x pet_total_count bs
    .ok ({ tile with
            tile_type := .PetTrainer name pet_total_count unknown_1 pets_id },
      bs)
  | 38 => do
    let (temperature, bs) ← readU32x bs
    .ok ({ tile with tile_type := .SteamEngine temperature }, bs)
  | 39 => do
    let (time_passed, bs) ← readU32x bs
    .ok ({ tile with tile_type := .LockBot time_passed }, bs)
  | 40 => do
    let (settings, bs) ← readU32x bs
    .ok ({ tile with tile_type := .WeatherMachine settings }, bs)
  | 41 => do
    let (ghost_jar_count, bs) ← readU32x bs
    .ok ({ tile with tile_type := .SpiritStorageUnit ghost_jar_count }, bs)
  | 42 =>
    let bs := skip 21 bs
    .ok ({ tile with tile_type := .DataBedrock }, bs)
  | 43 => do
    let (tl, bs) ← readU32x bs
    let (tr, bs) ← readU32x bs
    let (bl, bs) ← readU32x bs
    let (br, bs) ← readU32x bs
    .ok ({ tile with tile_type := .Shelf tl tr bl br }, bs)
  | 44 => do
    let (unknown_1, bs) ← readU8x bs
    let (owner_uid, bs) ← readU32x bs
    let (access_count, bs) ← readU32x bs
    let (access_uids, bs) ← readListN readU32x access_count bs
    .ok ({ tile with
            tile_type := .VipEntrance unknown_1 owner_uid access_uids }, bs)
  | 45 => .ok ({ tile with tile_type := .ChallangeTimer }, bs)
  | 47 => do
    let (label, bs) ← readStrx bs
    let (item_id, bs) ← readU32x bs
    let (lb, bs) ← readU8x bs
    .ok ({ tile with tile_type := .FishWallMount label item_id lb }, bs)
  | 48 => do
    let (label, bs) ← readStrx bs
    let (u1, bs) ← readU32x bs
    let (u2, bs) ← readU32x bs
    let (u3, bs) ← readU32x bs
    let (u4, bs) ← readU32x bs
    let (face, bs) ← readU32x bs
    let (hat, bs) ← readU32x bs
    let (hair, bs) ← readU32x bs
    let (u5, bs) ← readU16x bs
    let (u6, bs) ← readU16x bs
    .ok ({ tile with
            tile_type := .Portrait label u1 u2 u3 u4 face hat hair u5 u6 }, bs)
  | 49 => do
    let (unknown_1, bs) ← readU32x bs
    let (gravity, bs) ← readU32x bs
    let (flags, bs) ← readU8x bs
    .ok ({ tile with
            tile_type := .GuildWeatherMachine unknown_1 gravity flags }, bs)
  | 50 => do
    let (unknown_1, bs) ← readU32x bs
    .ok ({ tile with tile_type := .FossilPrepStation unknown_1 }, bs)
  | 51 => .ok ({ tile with tile_type := .DnaExtractor }, bs)
  | 52 => .ok ({ tile with tile_type := .Howler }, bs)
  | 53 => do
    let (current_chem, bs) ← readU32x bs
    let (target_chem, bs) ← readU32x bs
    .ok ({ tile with tile_type := .ChemsynthTank current_chem target_chem },
      bs)
  | 54 => do
    let (data_len, bs) ← readU16x bs
    let (items, bs) ← readListN readStorageItem (data_len / 13) bs
    .ok ({ tile with tile_type := .StorageBlock items }, bs)
  | 55 => do
    let (temperature_level, bs) ← readU32x bs
    let (ingredient_count, bs) ← readU32x bs
    let (ingredients, bs) ← readListN readCookingIngredient ingredient_count bs
    let (unknown_1, bs) ← readU32x bs
    let (unknown_2, bs) ← readU32x bs
    let (unknown_3, bs) ← readU32x bs
    .ok ({ tile with
            tile_type := .CookingOven temperature_level ingredients unknown_1
              unknown_2 unknown_3 }, bs)
  | 56 => do
    let (note, bs) ← readStrx bs
    let (volume, bs) ← readU32x bs
    .ok ({ tile with tile_type := .AudioRack note volume }, bs)
  | 57 => do
    let (unknown_1, bs) ← readU32x bs
    .ok ({ tile with tile_type := .GeigerCharger unknown_1 }, bs)
  | 58 => .ok ({ tile with tile_type := .AdventureBegins }, bs)
  | 59 => .ok ({ tile with tile_type := .TombRobber }, bs)
  | 60 => do
    let (total_rarity, bs) ← readU32x bs
    let (team_type, bs) ← readU8x bs
    .ok ({ tile with tile_type := .BalloonOMatic total_rarity team_type }, bs)
  | 61 => do
    let (fish_lb, bs) ← readU32x bs
    let (fish_status, bs) ← readU16x bs
    let (fish_id, bs) ← readU32x bs
    let (fish_total_exp, bs) ← readU32x bs
    let (fish_level, bs) ← readU32x bs
    let (unknown_2, bs) ← readU32x bs
    .ok ({ tile with
            tile_type := .TrainingPort fish_lb fish_status fish_id
              fish_total_exp fish_level unknown_2 }, bs)
  | 62 => do
    let (item_id_to_suck, bs) ← readU32x bs
    let (item_amount, bs) ← readU32x bs
    let (flags, bs) ← readU16x bs
    let (limit, bs) ← readU32x bs
    .ok ({ tile with
            tile_type := .ItemSucker item_id_to_suck item_amount flags
              limit }, bs)
  | 63 => do
    let (sync_timer, bs) ← readU32x bs
    let (activated, bs) ← readU32x bs
    let (command_data_count, bs) ← readU32x bs
    let (command_datas, bs) ← readListN readCyBotCommand command_data_count bs
    .ok ({ tile with
            tile_type := .CyBot sync_timer activated command_datas }, bs)
  | 65 =>
    let bs := skip 17 bs
    .ok ({ tile with tile_type := .GuildItem }, bs)
  | 66 => do
    let (unknown_1, bs) ← readU8x bs
    .ok ({ tile with tile_type := .Growscan unknown_1 }, bs)
  | 67 => do
    let (ghost_jar_count, bs) ← readU32x bs
    let (size, bs) ← readU32x bs
    let (unknown_1, bs) ← readListN readU32x size bs
    .ok ({ tile with
            tile_type := .ContainmentFieldPowerNode ghost_jar_count
              unknown_1 }, bs)
  | 68 => do
    let (unknown_1, bs) ← readU32x bs
    let (unknown_2, bs) ← readU32x bs
    let (unknown_3, bs) ← readU32x bs
    .ok ({ tile with
            tile_type := .SpiritBoard unknown_1 unknown_2 unknown_3 }, bs)
  | 72 => do
    let (sting_duration, bs) ← readU32x bs
    let (is_solid, bs) ← readU32x bs
    let (non_solid_duration, bs) ← readU32x bs
    .ok ({ tile with
            tile_type := .StormyCloud sting_duration is_solid
              non_solid_duration }, bs)
  | 73 => do
    let (unknown_1, bs) ← readU32x bs
    .ok ({ tile with tile_type := .TemporaryPlatform unknown_1 }, bs)
  | 74 => .ok ({ tile with tile_type := .SafeVault }, bs)
  | 75 => do
    let (is_raffling, bs) ← readU32x bs
    let (unknown_1, bs) ← readU16x bs
    let (ascii_code, bs) ← readU8x bs
    .ok ({ tile with
            tile_type := .AngelicCountingCloud is_raffling unknown_1
              ascii_code }, bs)
  | 77 => do
    let (interval_minutes, bs) ← readU32x bs
    let (size, bs) ← readU32x bs
    let (weather_machine_list, bs) ← readListN readU32x size bs
    .ok ({ tile with
            tile_type := .InfinityWeatherMachine interval_minutes
              weather_machine_list }, bs)
  | 79 => .ok ({ tile with tile_type := .PineappleGuzzler }, bs)
  | 80 => do
    let (pattern_index, bs) ← readU8x bs
    let (unknown_1, bs) ← readU32x bs
    let (r, bs) ← readU8x bs
    let (g, bs) ← readU8x bs
    let (b, bs) ← readU8x bs
    .ok ({ tile with
            tile_type := .KrakenGalaticBlock pattern_index unknown_1 r g b },
      bs)
  | 81 => do
    let (owner_user_id, bs) ← readU32x bs
    let (unknown_1, bs) ← readU16x bs
    let (unknown_2, bs) ← readU16x bs
    .ok ({ tile with
            tile_type := .FriendsEntrance owner_user_id unknown_1 unknown_2 },
      bs)
  | 69 => do
    let (gems, bs) ← readU32 bs
    let (unknown_2, bs) ← readU32 bs
    let (item_id, bs) ← readU32 bs
    let (unknown_4, bs) ← readU32 bs
    .ok ({ tile with
            tile_type := .TesseractManipulator gems unknown_2 item_id
              unknown_4 }, bs)
  | _ => .ok ({ tile with tile_type := .Basic }, bs)

/-! ## Per-cell decode: World::update_tile (src/lib.rs 839-928) -/

/-- The four leading u16 reads of a tile record: foreground id, background
id, parent block index, raw flags. -/
def readTileHeader (bs : Bytes) : Except Err (Nat × Nat × Nat × Nat × Bytes) := do
  let (fg, bs) ← readU16 bs
  let (bg, bs) ← readU16 bs
  let (pb, bs) ← readU16 bs
  let (fl, bs) ← readU16 bs
  .ok (fg, bg, pb, fl, bs)

/-- The tail of update_tile after the item-id validation: the optional parent
reference, the optional extra-data dispatch, the catalog lookup of the
foreground item and the optional u32-length-prefixed generic-decode block
(read through .unwrap(), decoded through the ? operator). -/
def decodeTileRest (ext : ExtDeps) (tile : Tile) (bs : Bytes) :
    Except Err (Tile × Bytes) := do
  let bs ← if tile.flags.contains TileFlags.HAS_PARENT then do
      let (_, bs1) ← readU16 bs
      pure bs1
    else pure bs
  let (tile, bs) ← if tile.flags.contains TileFlags.HAS_EXTRA_DATA then do
      let (extra_tile_type, bs1) ← readU8 bs
      getExtraTileData ext tile bs1 extra_tile_type
    else pure (tile, bs)
  match ext.db.get_item tile.foreground_item_id with
  | none => .error .itemNotFound
  | some db_item =>
    if db_item.file_name.endsWith ".xml" ||
        tile.foreground_item_id == 15376 || tile.foreground_item_id == 8642 then do
      let (cbor_size, bs) ← readU32x bs
      let (cbor_raw, bs) ← readBytesx cbor_size bs
      if ext.cborValueOk cbor_raw then .ok (tile, bs) else .error .payloadDecode
    else
      .ok (tile, bs)

/-- World::update_tile. The returned World carries the mutations performed
before the outcome (the error flag and the placeholder tile on the
invalid-item-id path). The item-id bound check truncates item_count with an
as-u16 cast, reproduced by % 65536. -/
def World.update_tile (w : World) (tile : Tile) (bs : Bytes) (replace : Bool)
    (ext : ExtDeps) : World × Except Err Bytes :=
  match readTileHeader bs with
  | .error e => (w, .error e)
  | .ok (fg, bg, pb, fl, bs) =>
    let tile := { tile with
                    foreground_item_id := fg,
                    background_item_id := bg,
                    parent_block_index := pb,
                    flags := TileFlags.from_bits_truncate fl,
                    flags_number := fl }
    if fg > ext.db.item_count % 65536 ∨ bg > ext.db.item_count % 65536 then
      ({ w with
           is_error := true,
           tiles := w.tiles ++
             [Tile.new 0 0 0 tile.flags tile.flags_number tile.x tile.y] },
        .error .invalidItemId)
    else
      match decodeTileRest ext tile bs with
      | .error e => (w, .error e)
      | .ok (tile, bs) =>
        if replace then
          let index := (tile.y * w.width + tile.x) % 4294967296
          if index < w.tiles.length then
            ({ w with tiles := w.tiles.set index tile }, .ok bs)
          else
            (w, .error .tileIndexOutOfBounds)
        else
          ({ w with tiles := w.tiles ++ [tile] }, .ok bs)

/-! ## World::parse (src/lib.rs 930-1044), split into its phases. -/

/-- The header phase of World::parse: version check, world flags, name,
extents, tile count, the 5-byte reserved skip and the tile-count guard.
World fields are assigned at exactly the points the source assigns them, so
an early error returns the partially assigned World. -/
def World.parseHeader (w : World) (bs : Bytes) : World × Except Err Bytes :=
  match readU16 bs with
  | .error e => (w, .error e)
  | .ok (version, bs) =>
    if version < 0x19 then ({ w with is_error := true }, .error .unsupportedVersion)
    else
      let w := { w with version := version }
      match readU32 bs with
      | .error e => (w, .error e)
      | .ok (flags, bs) =>
        let w := { w with flags := flags }
        match readU16 bs with
        | .error e => (w, .error e)
        | .ok (str_len, bs) =>
          match readBytes str_len bs with
          | .error e => (w, .error e)
          | .ok (name, bs) =>
            match readU32 bs with
            | .error e => (w, .error e)
            | .ok (width, bs) =>
              let w := { w with width := width }
              match readU32 bs with
              | .error e => (w, .error e)
              | .ok (height, bs) =>
                let w := { w with height := height }
                match readU32 bs with
                | .error e => (w, .error e)
                | .ok (tc, bs) =>
                  let w := { w with tile_count := tc }
                  let bs := skip 5 bs
                  let w := { w with name := name }
                  if tc > 0xFE01 then
                    ({ w with is_error := true }, .error .oversizedTileCount)
                  else (w, .ok bs)

/-- The tile-grid loop of World::parse: iteration i decodes the tile at
x = i % width, y = i / width in append mode. A returned error sets the error
flag at the loop level, exactly as the if-let handler in the source does; a
panic unwinds past that handler, and iterating with width = 0 is the
division-by-zero panic of i % width. The last argument counts the remaining
iterations. -/
def World.tileLoop (ext : ExtDeps) (w : World) (bs : Bytes) (i : Nat) :
    Nat → World × Except Err Bytes
  | 0 => (w, .ok bs)
  | n + 1 =>
    if w.width = 0 then (w, .error .panicked)
    else
      let tile := Tile.new 0 0 0 TileFlags.empty 0 (i % w.width) (i / w.width)
      match w.update_tile tile bs false ext with
      | (w1, .error .panicked) => (w1, .error .panicked)
      | (w1, .error e) => ({ w1 with is_error := true }, .error e)
      | (w1, .ok bs1) => World.tileLoop ext w1 bs1 (i + 1) n

/-- One dropped-item record, fields in source order: u16 id, f32 x, f32 y,
u8 count, u8 flags, u32 uid. -/
def readDroppedItem (bs : Bytes) : Except Err (DroppedItem × Bytes) := do
  let (id, bs) ← readU16 bs
  let (x, bs) ← readF32 bs
  let (y, bs) ← readF32 bs
  let (count, bs) ← readU8 bs
  let (flags, bs) ← readU8 bs
  let (uid, bs) ← readU32 bs
  .ok ({ id, x, y, count, flags, uid }, bs)

/-- The dropped-item loop of World::parse: reads n records, returning the
records pushed so far even when a later record fails, as the incremental
Vec pushes in the source do. -/
def readDroppedLoop : Nat → Bytes → List DroppedItem × Except Err Bytes
  | 0, bs => ([], .ok bs)
  | n + 1, bs =>
    match readDroppedItem bs with
    | .error e => ([], .error e)
    | .ok (it, bs1) =>
      let (its, r) := readDroppedLoop n bs1
      (it :: its, r)

/-- World::parse: reset, header, tile grid, 12-byte reserved skip, dropped
items, weather trailer. -/
def World.parse (w : World) (data : Bytes) (ext : ExtDeps) :
    World × Except Err Unit :=
  let w := w.reset
  match w.parseHeader data with
  | (w, .error e) => (w, .error e)
  | (w, .ok bs) =>
    match World.tileLoop ext w bs 0 w.tile_count with
    | (w, .error e) => (w, .error e)
    | (w, .ok bs) =>
      let bs := skip 12 bs
      match readU32 bs with
      | .error e => (w, .error e)
      | .ok (items_count, bs) =>
        let w := { w with dropped := { w.dropped with items_count } }
        match readU32 bs with
        | .error e => (w, .error e)
        | .ok (last_uid, bs) =>
          let w := { w with
                       dropped := { w.dropped with
                                      last_dropped_item_uid := last_uid } }
          let (items, r) := readDroppedLoop items_count bs
          let w := { w with dropped := { w.dropped with items } }
          match r with
          | .error e => (w, .error e)
          | .ok bs =>
            match readU16 bs with
            | .error e => (w, .error e)
            | .ok (base_weather, bs) =>
              match readU16 bs with
              | .error e => (w, .error e)
              | .ok (_, bs) =>
                match readU16 bs with
                | .error e => (w, .error e)
                | .ok (current_weather, _) =>
                  ({ w with
                       base_weather := WeatherType.fromU16 base_weather,
                       current_weather := WeatherType.fromU16 current_weather },
                    .ok ())

/-! ## Helper lemmas: monadic reduction and little-endian encodings -/

theorem ok_bind {α β : Type} (a : α) (f : α → Except Err β) :
    (Except.ok a >>= f) = f a := rfl

theorem error_bind {α β : Type} (e : Err) (f : α → Except Err β) :
    ((Except.error e : Except Err α) >>= f) = .error e := rfl

/-- Little-endian two-byte encoding of a u16 value. -/
def encodeU16 (v : Nat) : Bytes := [v % 256, v / 256 % 256]

/-- Little-endian four-byte encoding of a u32 value. -/
def encodeU32 (v : Nat) : Bytes :=
  [v % 256, v / 256 % 256, v / 65536 % 256, v / 16777216 % 256]

theorem readU16_encode (v : Nat) (rest : Bytes) :
    readU16 (encodeU16 v ++ rest) = .ok (v % 65536, rest) := by
  simp only [encodeU16, List.cons_append, List.nil_append, readU16]
  congr 1
  refine Prod.ext ?_ rfl
  show v % 256 + 256 * (v / 256 % 256) = v % 65536
  omega

theorem readU32_encode (v : Nat) (rest : Bytes) :
    readU32 (encodeU32 v ++ rest) = .ok (v % 4294967296, rest) := by
  simp only [encodeU32, List.cons_append, List.nil_append, readU32]
  congr 1
  refine Prod.ext ?_ rfl
  show v % 256 + 256 * (v / 256 % 256) + 65536 * (v / 65536 % 256) +
      16777216 * (v / 16777216 % 256) = v % 4294967296
  omega

theorem readBytes_exact (l rest : Bytes) :
    readBytes l.length (l ++ rest) = .ok (l, rest) := by
  simp only [readBytes, List.length_append, if_pos (Nat.le_add_right _ _),
    List.take_left, List.drop_left]

theorem readU16_encode_lt (v : Nat) (hv : v < 65536) (rest : Bytes) :
    readU16 (encodeU16 v ++ rest) = .ok (v, rest) := by
  rw [readU16_encode, Nat.mod_eq_of_lt hv]

theorem readU32_encode_lt (v : Nat) (hv : v < 4294967296) (rest : Bytes) :
    readU32 (encodeU32 v ++ rest) = .ok (v, rest) := by
  rw [readU32_encode, Nat.mod_eq_of_lt hv]

/-! ## C6: TileFlags round-trip -/

theorem tileflags_all_bits : TileFlags.all.bits = 65535 := rfl

/-- C6: for every 16-bit value v, converting v into TileFlags (the
from_bits_truncate conversion used at src/lib.rs 858) and back to its 16-bit
encoding yields v, including patterns with no defined meaning; and from_bits
accepts every 16-bit pattern, never rejecting input. -/
theorem tileflags_roundtrip (v : Nat) (hv : v < 65536) :
    (TileFlags.from_bits_truncate v).to_bits = v ∧
      TileFlags.from_bits v = some (TileFlags.from_bits_truncate v) := by
  have hmask : v &&& TileFlags.all.bits = v := by
    rw [tileflags_all_bits, show (65535 : Nat) = 2 ^ 16 - 1 by norm_num,
      Nat.and_pow_two_sub_one_eq_mod]
    exact Nat.mod_eq_of_lt hv
  constructor
  · show v &&& TileFlags.all.bits = v
    exact hmask
  · show TileFlags.from_bits v = _
    rw [TileFlags.from_bits, if_pos hmask]
    unfold TileFlags.from_bits_truncate
    rw [hmask]

theorem tileflags_roundtrip_witness :
    40000 < 65536 ∧
      ((TileFlags.from_bits_truncate 40000).to_bits = 40000 ∧
        TileFlags.from_bits 40000 = some (TileFlags.from_bits_truncate 40000)) :=
  ⟨by norm_num, tileflags_roundtrip 40000 (by norm_num)⟩

/-! ## A minimal successful input (the spec section 8 minimal buffer),
parameterised by the six weather-trailer bytes. -/

/-- Collaborators for the minimal buffer: item 0 exists, is not XML-classed,
and has grow_time 0. -/
def extMinimal : ExtDeps :=
  { db := { item_count := 10,
            get_item := fun i =>
              if i = 0 then some { grow_time := 0, file_name := "" }
              else none },
    cborValueOk := fun _ => true,
    cborPetDec := fun _ => none }

/-- version 0x19, flags 0, empty name, width=height=tile_count=1, 5 reserved
bytes, one all-zero tile record, 12 reserved bytes, empty dropped list, then
the six weather-trailer bytes. -/
def minimalBuffer (b0 b1 u0 u1 c0 c1 : Nat) : Bytes :=
  [25, 0] ++ [0, 0, 0, 0] ++ [0, 0] ++
  [1, 0, 0, 0] ++ [1, 0, 0, 0] ++ [1, 0, 0, 0] ++ [0, 0, 0, 0, 0] ++
  [0, 0, 0, 0, 0, 0, 0, 0] ++
  [0, 0, 0, 0, 0, 0, 0, 0, 0, 0, 0, 0] ++
  [0, 0, 0, 0] ++ [0, 0, 0, 0] ++
  [b0, b1, u0, u1, c0, c1]

/-- The world state after the header phase of the minimal buffer. -/
def minHeaderWorld : World :=
  { World.new.reset with
      version := 25,
      flags := 0,
      width := 1,
      height := 1,
      tile_count := 1,
      name := [] }

/-- The single decoded tile of the minimal buffer. -/
def minimalTile : Tile := Tile.new 0 0 0 (TileFlags.from_bits_truncate 0) 0 0 0

/-- The world produced by parsing the minimal buffer, up to its weather. -/
def minimalWorld (bw cw : WeatherType) : World :=
  { name := [], width := 1, height := 1, tile_count := 1,
    tiles := [minimalTile], dropped := ⟨0, 0, []⟩, base_weather := bw,
    current_weather := cw, is_error := false, version := 25, flags := 0 }

theorem parse_minimalBuffer (b0 b1 u0 u1 c0 c1 : Nat) :
    World.new.parse (minimalBuffer b0 b1 u0 u1 c0 c1) extMinimal =
      (minimalWorld (WeatherType.fromU16 (b0 + 256 * b1))
        (WeatherType.fromU16 (c0 + 256 * c1)), .ok ()) := by
  have h1 : World.new.reset.parseHeader (minimalBuffer b0 b1 u0 u1 c0 c1) =
      (minHeaderWorld,
        .ok ([0, 0, 0, 0, 0, 0, 0, 0] ++
          ([0, 0, 0, 0, 0, 0, 0, 0, 0, 0, 0, 0] ++
            ([0, 0, 0, 0] ++ ([0, 0, 0, 0] ++ [b0, b1, u0, u1, c0, c1]))))) :=
    rfl
  have h2 : World.tileLoop extMinimal minHeaderWorld
      ([0, 0, 0, 0, 0, 0, 0, 0] ++
        ([0, 0, 0, 0, 0, 0, 0, 0, 0, 0, 0, 0] ++
          ([0, 0, 0, 0] ++ ([0, 0, 0, 0] ++ [b0, b1, u0, u1, c0, c1])))) 0
      minHeaderWorld.tile_count =
      ({ minHeaderWorld with tiles := [minimalTile] },
        .ok ([0, 0, 0, 0, 0, 0, 0, 0, 0, 0, 0, 0] ++
          ([0, 0, 0, 0] ++ ([0, 0, 0, 0] ++ [b0, b1, u0, u1, c0, c1])))) := rfl
  have h3 : readU32 (skip 12
      ([0, 0, 0, 0, 0, 0, 0, 0, 0, 0, 0, 0] ++
        ([0, 0, 0, 0] ++ ([0, 0, 0, 0] ++ [b0, b1, u0, u1, c0, c1])))) =
      .ok (0, [0, 0, 0, 0] ++ [b0, b1, u0, u1, c0, c1]) := rfl
  have h4 : readU32 ([0, 0, 0, 0] ++ [b0, b1, u0, u1, c0, c1]) =
      .ok (0, [b0, b1, u0, u1, c0, c1]) := rfl
  have h5 : readDroppedLoop 0 [b0, b1, u0, u1, c0, c1] =
      ([], .ok [b0, b1, u0, u1, c0, c1]) := rfl
  have h6 : readU16 [b0, b1, u0, u1, c0, c1] =
      .ok (b0 + 256 * b1, [u0, u1, c0, c1]) := rfl
  have h7 : readU16 [u0, u1, c0, c1] = .ok (u0 + 256 * u1, [c0, c1]) := rfl
  have h8 : readU16 [c0, c1] = .ok (c0 + 256 * c1, []) := rfl
  rw [World.parse]
  simp only [h1, h2, h3, h4, h5, h6, h7, h8]
  rfl

/-! ## C8: out-of-range weather ids -/

/-- C8: every u16 weather id outside the closed enumeration (ids 0-78)
decodes to WeatherType.Default without an error, and parse applies the
mapping to both the base-weather and the current-weather trailer fields
(shown on the minimal-buffer family, whose weather words are arbitrary). -/
theorem weather_out_of_range_default :
    (∀ v : Nat, 79 ≤ v → WeatherType.fromU16 v = .Default) ∧
      (∀ b0 b1 u0 u1 c0 c1 : Nat,
        (World.new.parse (minimalBuffer b0 b1 u0 u1 c0 c1)
            extMinimal).1.base_weather = WeatherType.fromU16 (b0 + 256 * b1) ∧
          (World.new.parse (minimalBuffer b0 b1 u0 u1 c0 c1)
              extMinimal).1.current_weather =
            WeatherType.fromU16 (c0 + 256 * c1) ∧
          (World.new.parse (minimalBuffer b0 b1 u0 u1 c0 c1) extMinimal).2 =
            .ok ()) := by
  constructor
  · intro v hv
    obtain ⟨n, rfl⟩ : ∃ n, v = n + 79 := ⟨v - 79, by omega⟩
    rfl
  · intro b0 b1 u0 u1 c0 c1
    rw [parse_minimalBuffer]
    exact ⟨rfl, rfl, rfl⟩

theorem weather_out_of_range_default_witness :
    WeatherType.fromU16 500 = .Default ∧
      (World.new.parse (minimalBuffer 244 1 0 0 84 3)
          extMinimal).1.base_weather = WeatherType.fromU16 (244 + 256 * 1) :=
  ⟨weather_out_of_range_default.1 500 (by norm_num),
    (weather_out_of_range_default.2 244 1 0 0 84 3).1⟩

/-! ## C5: unmapped discriminant bytes -/

/-- The discriminant bytes of the arms of get_extra_tile_data. -/
def mappedDiscriminants : List Nat :=
  [1, 2, 3, 4, 6, 7, 8, 9, 10, 11, 12, 14, 15, 16, 17, 18, 19, 20, 21, 23,
   24, 25, 26, 27, 28, 30, 31, 32, 33, 34, 35, 36, 37, 38, 39, 40, 41, 42,
   43, 44, 45, 47, 48, 49, 50, 51, 52, 53, 54, 55, 56, 57, 58, 59, 60, 61,
   62, 63, 65, 66, 67, 68, 69, 72, 73, 74, 75, 77, 79, 80, 81]

/-- C5: a discriminant byte outside the dispatch table decodes to Basic
without error and without consuming any payload, so the extra-data step of
update_tile (one u8 read followed by the dispatch) advances the cursor by
exactly the one discriminant byte. -/
theorem unmapped_discriminant_basic (d : Nat) (hd : d ∉ mappedDiscriminants) :
    (∀ (ext : ExtDeps) (tile : Tile) (bs : Bytes),
        getExtraTileData ext tile bs d =
          .ok ({ tile with tile_type := .Basic }, bs)) ∧
      (∀ (ext : ExtDeps) (tile : Tile) (rest : Bytes),
        (do
          let (extra_tile_type, bs1) ← readU8 (d :: rest)
          getExtraTileData ext tile bs1 extra_tile_type) =
          .ok ({ tile with tile_type := .Basic }, rest)) := by
  have hbase : ∀ (ext : ExtDeps) (tile : Tile) (bs : Bytes),
      getExtraTileData ext tile bs d =
        .ok ({ tile with tile_type := .Basic }, bs) := by
    intro ext tile bs
    rcases Nat.lt_or_ge d 82 with hlt | hge
    · interval_cases d <;>
        first
          | rfl
          | exact absurd (by decide) hd
    · obtain ⟨m, rfl⟩ : ∃ m, d = m + 82 := ⟨d - 82, by omega⟩
      rfl
  refine ⟨hbase, ?_⟩
  intro ext tile rest
  show (readU8 (d :: rest) >>= fun p => getExtraTileData ext tile p.2 p.1) = _
  rw [show readU8 (d :: rest) = .ok (d, rest) from rfl, ok_bind]
  exact hbase ext tile rest

theorem unmapped_discriminant_basic_witness :
    (82 ∉ mappedDiscriminants) ∧
      getExtraTileData extMinimal minimalTile [7, 7] 82 =
        .ok ({ minimalTile with tile_type := .Basic }, [7, 7]) :=
  ⟨by decide,
    (unmapped_discriminant_basic 82 (by decide)).1 extMinimal minimalTile
      [7, 7]⟩

/-! ## C7: harvest readiness of Seed and ChemicalSource -/

/-- C7: for a decoded Seed (discriminant 4) or ChemicalSource (discriminant
9) whose foreground item the catalog resolves, the stored ready_to_harvest
boolean is true exactly when the decoded time_passed counter is at least the
item grow_time (equality counts as ready). -/
theorem harvest_ready_iff_grow_time :
    (∀ (ext : ExtDeps) (tile : Tile) (bs : Bytes) (tile2 : Tile) (bs2 : Bytes)
        (item : ItemInfo) (tp it : Nat) (r : Bool) (el : Nat),
        getExtraTileData ext tile bs 4 = .ok (tile2, bs2) →
        ext.db.get_item tile.foreground_item_id = some item →
        tile2.tile_type = .Seed tp it r el →
        (r = true ↔ item.grow_time ≤ tp)) ∧
      (∀ (ext : ExtDeps) (tile : Tile) (bs : Bytes) (tile2 : Tile)
          (bs2 : Bytes) (item : ItemInfo) (tp : Nat) (r : Bool) (el : Nat),
        getExtraTileData ext tile bs 9 = .ok (tile2, bs2) →
        ext.db.get_item tile.foreground_item_id = some item →
        tile2.tile_type = .ChemicalSource tp r el →
        (r = true ↔ item.grow_time ≤ tp)) := by
  constructor
  · intro ext tile bs tile2 bs2 item tp it r el hdec hitem htt
    rw [show getExtraTileData ext tile bs 4 = (do
        let (time_passed, bs) ← readU32 bs
        let (item_on_tree, bs) ← readU8 bs
        match ext.db.get_item tile.foreground_item_id with
        | none => .error .itemNotFound
        | some item =>
          let ready_to_harvest := decide (item.grow_time ≤ time_passed)
          .ok ({ tile with
                  tile_type := .Seed time_passed item_on_tree ready_to_harvest
                    time_passed }, bs)) from rfl] at hdec
    cases h32 : readU32 bs with
    | error e => rw [h32, error_bind] at hdec; exact absurd hdec (by simp)
    | ok p =>
      obtain ⟨tp', bsA⟩ := p
      rw [h32, ok_bind] at hdec
      simp only [] at hdec
      cases h8 : readU8 bsA with
      | error e => rw [h8, error_bind] at hdec; exact absurd hdec (by simp)
      | ok q =>
        obtain ⟨it', bsB⟩ := q
        rw [h8, ok_bind] at hdec
        simp only [] at hdec
        rw [hitem] at hdec
        have htile : tile2 = { tile with
            tile_type := .Seed tp' it' (decide (item.grow_time ≤ tp')) tp' } :=
          by
            have := hdec
            simp only [Except.ok.injEq, Prod.mk.injEq] at this
            exact this.1.symm
        rw [htile] at htt
        simp only [TileType.Seed.injEq] at htt
        obtain ⟨h1, h2, h3, h4⟩ := htt
        subst h1
        rw [← h3]
        simp
  · intro ext tile bs tile2 bs2 item tp r el hdec hitem htt
    rw [show getExtraTileData ext tile bs 9 = (do
        let (time_passed, bs) ← readU32 bs
        match ext.db.get_item tile.foreground_item_id with
        | none => .error .itemNotFound
        | some item =>
          let ready_to_harvest := decide (time_passed ≥ item.grow_time)
          .ok ({ tile with
                  tile_type := .ChemicalSource time_passed ready_to_harvest
                    time_passed }, bs)) from rfl] at hdec
    cases h32 : readU32 bs with
    | error e => rw [h32, error_bind] at hdec; exact absurd hdec (by simp)
    | ok p =>
      obtain ⟨tp', bsA⟩ := p
      rw [h32, ok_bind] at hdec
      simp only [] at hdec
      rw [hitem] at hdec
      have htile : tile2 = { tile with
          tile_type := .ChemicalSource tp' (decide (tp' ≥ item.grow_time))
            tp' } := by
        have := hdec
        simp only [Except.ok.injEq, Prod.mk.injEq] at this
        exact this.1.symm
      rw [htile] at htt
      simp only [TileType.ChemicalSource.injEq] at htt
      obtain ⟨h1, h2, h3⟩ := htt
      subst h1
      rw [← h2]
      simp [ge_iff_le]

/-- Collaborators whose catalog resolves every id to grow_time 5. -/
def extSeed : ExtDeps :=
  { db := { item_count := 100,
            get_item := fun _ => some { grow_time := 5, file_name := "" } },
    cborValueOk := fun _ => true,
    cborPetDec := fun _ => none }

def tileSeedW : Tile := Tile.new 1 0 0 TileFlags.empty 0 0 0

theorem harvest_ready_iff_grow_time_witness :
    (true = true ↔ (5 : Nat) ≤ 5) ∧ (true = true ↔ (5 : Nat) ≤ 6) :=
  ⟨harvest_ready_iff_grow_time.1 extSeed tileSeedW [5, 0, 0, 0, 7]
      { tileSeedW with tile_type := .Seed 5 7 true 5 } []
      { grow_time := 5, file_name := "" } 5 7 true 5 rfl rfl rfl,
    harvest_ready_iff_grow_time.2 extSeed tileSeedW [6, 0, 0, 0]
      { tileSeedW with tile_type := .ChemicalSource 6 true 6 } []
      { grow_time := 5, file_name := "" } 6 true 6 rfl rfl rfl⟩

/-! ## C10: coordinate lookups on arbitrary World states -/

def cexTile : Tile := Tile.new 1 2 3 TileFlags.empty 4 0 0

/-- An adversarial state: width 2^31, height 3, a single stored tile. -/
def cexWorld : World :=
  { name := [], width := 2147483648, height := 3, tile_count := 0,
    tiles := [cexTile], dropped := ⟨0, 0, []⟩, base_weather := .Default,
    current_weather := .Default, is_error := false, version := 0, flags := 0 }

/-- C10 counterexample: at x = 0, y = 2 the u32 index expression
y*width+x wraps to 0, so get_tile returns the stored tile even though the
mathematical row-major index 2*width+0 = 2^32 is not less than
tiles.len() = 1, where the claim requires None. -/
theorem get_tile_wrap_cex :
    cexWorld.get_tile 0 2 = some cexTile ∧
      cexWorld.tiles.length ≤ 2 * cexWorld.width + 0 := by
  constructor
  · rfl
  · show (1 : Nat) ≤ 2 * 2147483648 + 0
    norm_num

/-- C10 amended: for every World state and coordinates, get_tile,
get_tile_mut and tile_index return none when x ≥ width or y ≥ height; inside
bounds tile_index returns the wrapped u32 row-major index
(y*width+x) % 2^32, and get_tile/get_tile_mut return none whenever that
wrapped index is not less than tiles.len(). All three are total functions
(release-mode wrapping arithmetic; no panic). -/
theorem get_tile_bounds_amended (w : World) (x y : Nat) :
    ((x ≥ w.width ∨ y ≥ w.height) →
        w.get_tile x y = none ∧ w.get_tile_mut x y = none ∧
          w.tile_index x y = none) ∧
      (x < w.width → y < w.height →
        w.tile_index x y = some ((y * w.width + x) % 4294967296) ∧
          (w.tiles.length ≤ (y * w.width + x) % 4294967296 →
            w.get_tile x y = none ∧ w.get_tile_mut x y = none)) := by
  constructor
  · intro hout
    exact ⟨by rw [World.get_tile, if_pos hout],
      by rw [World.get_tile_mut, if_pos hout],
      by rw [World.tile_index, if_pos hout]⟩
  · intro hx hy
    have hin : ¬(x ≥ w.width ∨ y ≥ w.height) := by omega
    refine ⟨by rw [World.tile_index, if_neg hin], fun hlen => ⟨?_, ?_⟩⟩
    · rw [World.get_tile, if_neg hin, List.get?_eq_getElem?]
      exact List.getElem?_eq_none hlen
    · rw [World.get_tile_mut, if_neg hin, List.get?_eq_getElem?]
      exact List.getElem?_eq_none hlen

def emptyGridWorld : World := { minimalWorld .Default .Default with tiles := [] }

theorem get_tile_bounds_amended_witness :
    ((minimalWorld .Default .Default).get_tile 5 0 = none ∧
        (minimalWorld .Default .Default).get_tile_mut 5 0 = none ∧
        (minimalWorld .Default .Default).tile_index 5 0 = none) ∧
      (emptyGridWorld.get_tile 0 0 = none ∧
        emptyGridWorld.get_tile_mut 0 0 = none) :=
  ⟨(get_tile_bounds_amended (minimalWorld .Default .Default) 5 0).1
      (Or.inl (by norm_num [minimalWorld])),
    ((get_tile_bounds_amended emptyGridWorld 0 0).2
        (by norm_num [emptyGridWorld, minimalWorld])
        (by norm_num [emptyGridWorld, minimalWorld])).2
      (by norm_num [emptyGridWorld, minimalWorld])⟩

/-! ## C4: dropped-item record layout -/

/-- The fields of one dropped-item record read from a 16-byte chunk, in the
declared order: id at offset 0 (u16), x at 2 (f32 bits), y at 6 (f32 bits),
count at 10 (u8), flags at 11 (u8), uid at 12 (u32). -/
def decodeRecordFields (rec : Bytes) (it : DroppedItem) : Prop :=
  it.id = rec.getD 0 0 + 256 * rec.getD 1 0 ∧
    it.x = rec.getD 2 0 + 256 * rec.getD 3 0 + 65536 * rec.getD 4 0 +
      16777216 * rec.getD 5 0 ∧
    it.y = rec.getD 6 0 + 256 * rec.getD 7 0 + 65536 * rec.getD 8 0 +
      16777216 * rec.getD 9 0 ∧
    it.count = rec.getD 10 0 ∧
    it.flags = rec.getD 11 0 ∧
    it.uid = rec.getD 12 0 + 256 * rec.getD 13 0 + 65536 * rec.getD 14 0 +
      16777216 * rec.getD 15 0

/-- The dropped list chunk splits into consecutive 16-byte records decoding
the items in order. -/
def RecordsSpec : List DroppedItem → Bytes → Prop
  | [], chunk => chunk = []
  | it :: its, chunk =>
      ∃ rec chunk2, chunk = rec ++ chunk2 ∧ rec.length = 16 ∧
        decodeRecordFields rec it ∧ RecordsSpec its chunk2

theorem readDroppedItem_ok (bs : Bytes) (it : DroppedItem) (rest : Bytes)
    (h : readDroppedItem bs = .ok (it, rest)) :
    ∃ rec, bs = rec ++ rest ∧ rec.length = 16 ∧ decodeRecordFields rec it := by
  rcases bs with _ | ⟨b0, _ | ⟨b1, _ | ⟨b2, _ | ⟨b3, _ | ⟨b4, _ | ⟨b5, _ |
    ⟨b6, _ | ⟨b7, _ | ⟨b8, _ | ⟨b9, _ | ⟨b10, _ | ⟨b11, _ | ⟨b12, _ | ⟨b13,
    _ | ⟨b14, _ | ⟨b15, rest2⟩⟩⟩⟩⟩⟩⟩⟩⟩⟩⟩⟩⟩⟩⟩⟩
  all_goals try exact Except.noConfusion (show Except.error Err.truncated = Except.ok (it, rest) from h)
  have he : readDroppedItem (b0 :: b1 :: b2 :: b3 :: b4 :: b5 :: b6 :: b7 ::
      b8 :: b9 :: b10 :: b11 :: b12 :: b13 :: b14 :: b15 :: rest2) =
      .ok ({ id := b0 + 256 * b1,
             count := b10, flags := b11,
             uid := b12 + 256 * b13 + 65536 * b14 + 16777216 * b15,
             x := b2 + 256 * b3 + 65536 * b4 + 16777216 * b5,
             y := b6 + 256 * b7 + 65536 * b8 + 16777216 * b9 }, rest2) := rfl
  rw [he] at h
  injection h with hpair
  rw [Prod.mk.injEq] at hpair
  obtain ⟨hit, hrest⟩ := hpair
  subst hrest
  subst hit
  exact ⟨[b0, b1, b2, b3, b4, b5, b6, b7, b8, b9, b10, b11, b12, b13, b14,
    b15], rfl, rfl, rfl, rfl, rfl, rfl, rfl, rfl⟩

/-- C4 (amended): a successfully decoded dropped-item list of count N
consumes exactly N by 16 bytes of record data (not N by 12), each record
decoding its fields in the declared order id, x, y, count, flags, uid at
byte offsets 0, 2, 6, 10, 11, 12 of its 16-byte chunk. -/
theorem dropped_records_consume_sixteen :
    ∀ (n : Nat) (bs : Bytes) (items : List DroppedItem) (bs2 : Bytes),
      readDroppedLoop n bs = (items, .ok bs2) →
      items.length = n ∧
        ∃ chunk, bs = chunk ++ bs2 ∧ chunk.length = 16 * n ∧
          RecordsSpec items chunk := by
  intro n
  induction n with
  | zero =>
    intro bs items bs2 h
    rw [show readDroppedLoop 0 bs = ([], .ok bs) from rfl] at h
    rw [Prod.mk.injEq] at h
    obtain ⟨hitems, hbs⟩ := h
    injection hbs with hbs
    subst hitems
    subst hbs
    exact ⟨rfl, [], rfl, rfl, rfl⟩
  | succ n ih =>
    intro bs items bs2 h
    rw [show readDroppedLoop (n + 1) bs =
        (match readDroppedItem bs with
          | .error e => ([], .error e)
          | .ok (it, bs1) =>
            let p := readDroppedLoop n bs1
            (it :: p.1, p.2)) from rfl] at h
    cases hit : readDroppedItem bs with
    | error e =>
      rw [hit] at h
      simp only [Prod.mk.injEq] at h
      exact absurd h.2 (by simp)
    | ok q =>
      obtain ⟨it, bs1⟩ := q
      rw [hit] at h
      simp only [Prod.mk.injEq] at h
      obtain ⟨hitems, hr⟩ := h
      cases hloop : readDroppedLoop n bs1 with
      | mk its r =>
        rw [hloop] at hitems hr
        simp only at hitems hr
        subst hitems
        subst hr
        obtain ⟨hlen, chunk2, hsplit, hclen, hspec⟩ := ih bs1 its bs2 hloop
        obtain ⟨rec, hbs, hrlen, hfields⟩ := readDroppedItem_ok bs it bs1 hit
        subst hbs
        subst hsplit
        refine ⟨by simp [hlen], rec ++ chunk2, by rw [List.append_assoc],
          ?_, ?_⟩
        · rw [List.length_append, hrlen, hclen]; omega
        · exact ⟨rec, chunk2, rfl, hrlen, hfields, hspec⟩

/-- C4 counterexample: one dropped record occupies 16 bytes, not 12: the
16-byte input decodes completely with nothing left over, while the 12-byte
input is a truncation error. -/
theorem dropped_record_twelve_bytes_cex :
    readDroppedLoop 1 [1, 0, 0, 0, 0, 0, 0, 0, 0, 0, 2, 3, 4, 0, 0, 0] =
      ([{ id := 1, count := 2, flags := 3, uid := 4, x := 0, y := 0 }],
        .ok []) ∧
      (readDroppedLoop 1 [0, 0, 0, 0, 0, 0, 0, 0, 0, 0, 0, 0]).2 =
        .error .truncated := by
  exact ⟨rfl, rfl⟩

theorem dropped_records_consume_sixteen_witness :
    ([({ id := 1, count := 2, flags := 3, uid := 4, x := 0, y := 0 } :
        DroppedItem)].length = 1 ∧
      ∃ chunk,
        ([1, 0, 0, 0, 0, 0, 0, 0, 0, 0, 2, 3, 4, 0, 0, 0] : Bytes) =
          chunk ++ [] ∧ chunk.length = 16 * 1 ∧
          RecordsSpec
            [{ id := 1, count := 2, flags := 3, uid := 4, x := 0, y := 0 }]
            chunk) :=
  dropped_records_consume_sixteen 1
    [1, 0, 0, 0, 0, 0, 0, 0, 0, 0, 2, 3, 4, 0, 0, 0]
    [{ id := 1, count := 2, flags := 3, uid := 4, x := 0, y := 0 }] [] rfl

/-! ## C9: the tile-count sanity ceiling -/

/-- C9: the fixed sanity ceiling is 0xFE01; every input whose header
tile_count field exceeds it is rejected with the oversized-tile-count error
before any tile is decoded (tiles is still empty) and with the error flag
set, whatever the rest of the buffer holds. -/
theorem oversized_tile_count_guard (version fl wd ht tc : Nat)
    (name rest : Bytes) (w0 : World) (ext : ExtDeps)
    (hv : 0x19 ≤ version) (hv2 : version < 65536) (hfl : fl < 4294967296)
    (hname : name.length < 65536) (hw : wd < 4294967296)
    (hh : ht < 4294967296) (htc : tc < 4294967296) (hbig : 0xFE01 < tc) :
    (w0.parse
        (encodeU16 version ++ (encodeU32 fl ++ (encodeU16 name.length ++
          (name ++ (encodeU32 wd ++ (encodeU32 ht ++
            (encodeU32 tc ++ rest))))))) ext).2 = .error .oversizedTileCount ∧
      (w0.parse
          (encodeU16 version ++ (encodeU32 fl ++ (encodeU16 name.length ++
            (name ++ (encodeU32 wd ++ (encodeU32 ht ++
              (encodeU32 tc ++ rest))))))) ext).1.is_error = true ∧
      (w0.parse
          (encodeU16 version ++ (encodeU32 fl ++ (encodeU16 name.length ++
            (name ++ (encodeU32 wd ++ (encodeU32 ht ++
              (encodeU32 tc ++ rest))))))) ext).1.tiles = [] := by
  have hP : w0.reset.parseHeader
      (encodeU16 version ++ (encodeU32 fl ++ (encodeU16 name.length ++
        (name ++ (encodeU32 wd ++ (encodeU32 ht ++
          (encodeU32 tc ++ rest))))))) =
      ({ w0.reset with
           version := version,
           flags := fl,
           width := wd,
           height := ht,
           tile_count := tc,
           name := name,
           is_error := true }, .error .oversizedTileCount) := by
    rw [World.parseHeader]
    simp only [readU16_encode_lt version hv2, readU32_encode_lt fl hfl,
      readU16_encode_lt name.length hname, readBytes_exact,
      readU32_encode_lt wd hw, readU32_encode_lt ht hh,
      readU32_encode_lt tc htc,
      if_neg (show ¬version < 0x19 by omega), if_pos hbig]
  rw [World.parse]
  simp only [hP]
  exact ⟨trivial, trivial, rfl⟩

theorem oversized_tile_count_guard_witness :
    (World.new.parse
        (encodeU16 25 ++ (encodeU32 0 ++ (encodeU16 ([] : Bytes).length ++
          (([] : Bytes) ++ (encodeU32 1 ++ (encodeU32 1 ++
            (encodeU32 70000 ++ []))))))) extMinimal).2 =
      .error .oversizedTileCount ∧
      (World.new.parse
          (encodeU16 25 ++ (encodeU32 0 ++ (encodeU16 ([] : Bytes).length ++
            (([] : Bytes) ++ (encodeU32 1 ++ (encodeU32 1 ++
              (encodeU32 70000 ++ []))))))) extMinimal).1.is_error = true :=
  ⟨(oversized_tile_count_guard 25 0 1 1 70000 [] [] World.new extMinimal
      (by norm_num) (by norm_num) (by norm_num) (by norm_num) (by norm_num)
      (by norm_num) (by norm_num) (by norm_num)).1,
    (oversized_tile_count_guard 25 0 1 1 70000 [] [] World.new extMinimal
      (by norm_num) (by norm_num) (by norm_num) (by norm_num) (by norm_num)
      (by norm_num) (by norm_num) (by norm_num)).2.1⟩

/-! ## C1: invalid item ids abort the whole grid decode -/

/-- C1: if at any remaining iteration count n and any grid position i the
next tile record carries a foreground or background id exceeding
catalog.item_count, the tile-grid loop of parse stops at that tile with the
invalid-item-id error: the error flag is set, a placeholder tile with zeroed
item ids (flags and position retained) is substituted at that position, and
no further tile of the buffer is decoded (the tile list grows by exactly
that one placeholder, whatever n was). -/
theorem tileLoop_invalid_item_id_fatal (ext : ExtDeps) (w : World)
    (i n fg bg pb fl : Nat) (rest : Bytes)
    (hw : w.width ≠ 0) (hn : n ≠ 0) (hfg : fg < 65536) (hbg : bg < 65536)
    (hpb : pb < 65536) (hfl : fl < 65536)
    (hbad : ext.db.item_count < fg ∨ ext.db.item_count < bg) :
    World.tileLoop ext w
      (encodeU16 fg ++ (encodeU16 bg ++ (encodeU16 pb ++
        (encodeU16 fl ++ rest)))) i n =
      ({ w with
           is_error := true,
           tiles := w.tiles ++
             [Tile.new 0 0 0 (TileFlags.from_bits_truncate fl) fl
               (i % w.width) (i / w.width)] }, .error .invalidItemId) := by
  obtain ⟨m, rfl⟩ : ∃ m, n = m + 1 := ⟨n - 1, by omega⟩
  have hcond : fg > ext.db.item_count % 65536 ∨
      bg > ext.db.item_count % 65536 := by
    rcases hbad with hb | hb
    · left; omega
    · right; omega
  have hu : w.update_tile
      (Tile.new 0 0 0 TileFlags.empty 0 (i % w.width) (i / w.width))
      (encodeU16 fg ++ (encodeU16 bg ++ (encodeU16 pb ++
        (encodeU16 fl ++ rest)))) false ext =
      ({ w with
           is_error := true,
           tiles := w.tiles ++
             [Tile.new 0 0 0 (TileFlags.from_bits_truncate fl) fl
               (i % w.width) (i / w.width)] }, .error .invalidItemId) := by
    rw [World.update_tile, readTileHeader]
    simp only [readU16_encode_lt fg hfg, readU16_encode_lt bg hbg,
      readU16_encode_lt pb hpb, readU16_encode_lt fl hfl, ok_bind,
      if_pos hcond]
    rfl
  rw [show World.tileLoop ext w
      (encodeU16 fg ++ (encodeU16 bg ++ (encodeU16 pb ++
        (encodeU16 fl ++ rest)))) i (m + 1) =
      (if w.width = 0 then (w, .error .panicked)
       else
        match w.update_tile
            (Tile.new 0 0 0 TileFlags.empty 0 (i % w.width) (i / w.width))
            (encodeU16 fg ++ (encodeU16 bg ++ (encodeU16 pb ++
              (encodeU16 fl ++ rest)))) false ext with
        | (w1, .error .panicked) => (w1, .error .panicked)
        | (w1, .error e) => ({ w1 with is_error := true }, .error e)
        | (w1, .ok bs1) =>
          World.tileLoop ext w1 bs1 (i + 1) m) from rfl]
  rw [if_neg hw, hu]

theorem tileLoop_invalid_item_id_fatal_witness :
    World.tileLoop extMinimal emptyGridWorld
      (encodeU16 11 ++ (encodeU16 0 ++ (encodeU16 0 ++
        (encodeU16 0 ++ [9, 9])))) 0 2 =
      ({ emptyGridWorld with
           is_error := true,
           tiles := emptyGridWorld.tiles ++
             [Tile.new 0 0 0 (TileFlags.from_bits_truncate 0) 0
               (0 % emptyGridWorld.width) (0 / emptyGridWorld.width)] },
        .error .invalidItemId) :=
  tileLoop_invalid_item_id_fatal extMinimal emptyGridWorld 0 2 11 0 0 0
    [9, 9] (by norm_num [emptyGridWorld, minimalWorld]) (by norm_num)
    (by norm_num) (by norm_num) (by norm_num) (by norm_num)
    (Or.inl (by norm_num [extMinimal]))

/-! ## Shape lemmas about the decode phases, used for the grid-shape and
error-flag claims. -/

theorem update_tile_ok_append (ext : ExtDeps) (w : World) (t : Tile)
    (bs : Bytes) (w2 : World) (bs2 : Bytes)
    (h : w.update_tile t bs false ext = (w2, .ok bs2)) :
    ∃ t2, w2 = { w with tiles := w.tiles ++ [t2] } := by
  rw [World.update_tile] at h
  cases hh : readTileHeader bs with
  | error e =>
    rw [hh] at h
    simp only [Prod.mk.injEq, reduceCtorEq, and_false] at h
  | ok p =>
    obtain ⟨fg, bg, pb, fl, bs1⟩ := p
    rw [hh] at h
    simp only [] at h
    split at h
    · simp only [Prod.mk.injEq, reduceCtorEq, and_false] at h
    · cases hd : decodeTileRest ext
          { t with
              foreground_item_id := fg,
              background_item_id := bg,
              parent_block_index := pb,
              flags := TileFlags.from_bits_truncate fl,
              flags_number := fl } bs1 with
      | error e =>
        rw [hd] at h
        simp only [Prod.mk.injEq, reduceCtorEq, and_false] at h
      | ok q =>
        obtain ⟨t2, bs3⟩ := q
        rw [hd] at h
        simp only [Bool.false_eq_true, if_false, Prod.mk.injEq,
          Except.ok.injEq] at h
        exact ⟨t2, h.1.symm⟩

theorem tileLoop_ok_tiles :
    ∀ (n : Nat) (ext : ExtDeps) (w : World) (bs : Bytes) (i : Nat)
      (w2 : World) (bs2 : Bytes),
      World.tileLoop ext w bs i n = (w2, .ok bs2) →
      ∃ L : List Tile, L.length = n ∧ w2 = { w with tiles := w.tiles ++ L } := by
  intro n
  induction n with
  | zero =>
    intro ext w bs i w2 bs2 h
    rw [show World.tileLoop ext w bs i 0 = (w, .ok bs) from rfl] at h
    simp only [Prod.mk.injEq, Except.ok.injEq] at h
    exact ⟨[], rfl, by rw [← h.1]; simp⟩
  | succ n ih =>
    intro ext w bs i w2 bs2 h
    rw [show World.tileLoop ext w bs i (n + 1) =
        (if w.width = 0 then (w, .error .panicked)
         else
          match w.update_tile
              (Tile.new 0 0 0 TileFlags.empty 0 (i % w.width) (i / w.width))
              bs false ext with
          | (w1, .error .panicked) => (w1, .error .panicked)
          | (w1, .error e) => ({ w1 with is_error := true }, .error e)
          | (w1, .ok bs1) => World.tileLoop ext w1 bs1 (i + 1) n) from
      rfl] at h
    split at h
    · simp only [Prod.mk.injEq, reduceCtorEq, and_false] at h
    · cases hu : w.update_tile
          (Tile.new 0 0 0 TileFlags.empty 0 (i % w.width) (i / w.width)) bs
          false ext with
      | mk w1 r =>
        rw [hu] at h
        cases r with
        | error e =>
          cases e <;> simp only [Prod.mk.injEq, reduceCtorEq, and_false] at h
        | ok bs1 =>
          simp only [] at h
          obtain ⟨L1, hL1, hw2⟩ := ih ext w1 bs1 (i + 1) w2 bs2 h
          obtain ⟨t2, hw1⟩ := update_tile_ok_append ext w _ bs w1 bs1 hu
          subst hw1
          refine ⟨t2 :: L1, by simp [hL1], ?_⟩
          rw [hw2]
          simp [List.append_assoc]

theorem parseHeader_ok (w : World) (bs : Bytes) (w2 : World) (bs2 : Bytes)
    (h : w.parseHeader bs = (w2, .ok bs2)) :
    w2.tile_count ≤ 0xFE01 ∧ w2.tiles = w.tiles ∧ w2.is_error = w.is_error := by
  rw [World.parseHeader] at h
  cases h1 : readU16 bs with
  | error e =>
    rw [h1] at h
    simp only [Prod.mk.injEq, reduceCtorEq, and_false] at h
  | ok p =>
    obtain ⟨version, bsA⟩ := p
    rw [h1] at h
    simp only [] at h
    by_cases hv : version < 0x19
    · rw [if_pos hv] at h
      simp only [Prod.mk.injEq, reduceCtorEq, and_false] at h
    · rw [if_neg hv] at h
      cases h2 : readU32 bsA with
      | error e =>
        rw [h2] at h
        simp only [Prod.mk.injEq, reduceCtorEq, and_false] at h
      | ok p =>
        obtain ⟨flags, bsB⟩ := p
        rw [h2] at h
        simp only [] at h
        cases h3 : readU16 bsB with
        | error e =>
          rw [h3] at h
          simp only [Prod.mk.injEq, reduceCtorEq, and_false] at h
        | ok p =>
          obtain ⟨str_len, bsC⟩ := p
          rw [h3] at h
          simp only [] at h
          cases h4 : readBytes str_len bsC with
          | error e =>
            rw [h4] at h
            simp only [Prod.mk.injEq, reduceCtorEq, and_false] at h
          | ok p =>
            obtain ⟨name, bsD⟩ := p
            rw [h4] at h
            simp only [] at h
            cases h5 : readU32 bsD with
            | error e =>
              rw [h5] at h
              simp only [Prod.mk.injEq, reduceCtorEq, and_false] at h
            | ok p =>
              obtain ⟨width, bsE⟩ := p
              rw [h5] at h
              simp only [] at h
              cases h6 : readU32 bsE with
              | error e =>
                rw [h6] at h
                simp only [Prod.mk.injEq, reduceCtorEq, and_false] at h
              | ok p =>
                obtain ⟨height, bsF⟩ := p
                rw [h6] at h
                simp only [] at h
                cases h7 : readU32 bsF with
                | error e =>
                  rw [h7] at h
                  simp only [Prod.mk.injEq, reduceCtorEq, and_false] at h
                | ok p =>
                  obtain ⟨tc, bsG⟩ := p
                  rw [h7] at h
                  simp only [] at h
                  by_cases hg : tc > 0xFE01
                  · rw [if_pos hg] at h
                    simp only [Prod.mk.injEq, reduceCtorEq, and_false] at h
                  · rw [if_neg hg] at h
                    simp only [Prod.mk.injEq, Except.ok.injEq] at h
                    obtain ⟨hw2, hbs⟩ := h
                    subst hw2
                    exact ⟨by show tc ≤ 0xFE01; omega, rfl, rfl⟩

theorem parse_ok_shape (w0 : World) (data : Bytes) (ext : ExtDeps) (w : World)
    (h : w0.parse data ext = (w, .ok ())) :
    w.tiles.length = w.tile_count ∧ w.tile_count ≤ 0xFE01 := by
  rw [World.parse] at h
  cases hH : w0.reset.parseHeader data with
  | mk w1 r =>
    rw [hH] at h
    cases r with
    | error e => simp only [Prod.mk.injEq, reduceCtorEq, and_false] at h
    | ok bs1 =>
      simp only [] at h
      cases hL : World.tileLoop ext w1 bs1 0 w1.tile_count with
      | mk w2 r2 =>
        rw [hL] at h
        cases r2 with
        | error e => simp only [Prod.mk.injEq, reduceCtorEq, and_false] at h
        | ok bs2 =>
          simp only [] at h
          cases hc : readU32 (skip 12 bs2) with
          | error e =>
            rw [hc] at h
            simp only [Prod.mk.injEq, reduceCtorEq, and_false] at h
          | ok p =>
            obtain ⟨cnt, bs3⟩ := p
            rw [hc] at h
            simp only [] at h
            cases hu2 : readU32 bs3 with
            | error e =>
              rw [hu2] at h
              simp only [Prod.mk.injEq, reduceCtorEq, and_false] at h
            | ok p =>
              obtain ⟨uid, bs4⟩ := p
              rw [hu2] at h
              simp only [] at h
              cases hDL : readDroppedLoop cnt bs4 with
              | mk items r3 =>
                rw [hDL] at h
                cases r3 with
                | error e =>
                  simp only [Prod.mk.injEq, reduceCtorEq, and_false] at h
                | ok bs5 =>
                  simp only [] at h
                  cases hb : readU16 bs5 with
                  | error e =>
                    rw [hb] at h
                    simp only [Prod.mk.injEq, reduceCtorEq, and_false] at h
                  | ok p =>
                    obtain ⟨bw, bs6⟩ := p
                    rw [hb] at h
                    simp only [] at h
                    cases hu3 : readU16 bs6 with
                    | error e =>
                      rw [hu3] at h
                      simp only [Prod.mk.injEq, reduceCtorEq, and_false] at h
                    | ok p =>
                      obtain ⟨uw, bs7⟩ := p
                      rw [hu3] at h
                      simp only [] at h
                      cases hcw : readU16 bs7 with
                      | error e =>
                        rw [hcw] at h
                        simp only [Prod.mk.injEq, reduceCtorEq, and_false] at h
                      | ok p =>
                        obtain ⟨cw, bs8⟩ := p
                        rw [hcw] at h
                        simp only [Prod.mk.injEq] at h
                        obtain ⟨hw, -⟩ := h
                        obtain ⟨htc1, htiles1, -⟩ :=
                          parseHeader_ok w0.reset data w1 bs1 hH
                        obtain ⟨L, hLlen, hw2⟩ :=
                          tileLoop_ok_tiles w1.tile_count ext w1 bs1 0 w2 bs2
                            hL
                        subst hw
                        subst hw2
                        constructor
                        · show (w1.tiles ++ L).length = w1.tile_count
                          rw [List.length_append, hLlen, htiles1]
                          show w0.reset.tiles.length + w1.tile_count = _
                          rw [show w0.reset.tiles = [] from rfl]
                          simp
                        · exact htc1

/-! ## Error-kind lemmas: every cursor read fails only with Truncated. -/

theorem readU8_err (bs : Bytes) (e : Err) (h : readU8 bs = .error e) :
    e = .truncated := by
  rcases bs with _ | ⟨b0, rest⟩ <;>
    simp only [readU8, Except.error.injEq, reduceCtorEq] at h
  exact h.symm

theorem readU16_err (bs : Bytes) (e : Err) (h : readU16 bs = .error e) :
    e = .truncated := by
  rcases bs with _ | ⟨b0, _ | ⟨b1, rest⟩⟩ <;>
    simp only [readU16, Except.error.injEq, reduceCtorEq] at h
  all_goals exact h.symm

theorem readU32_err (bs : Bytes) (e : Err) (h : readU32 bs = .error e) :
    e = .truncated := by
  rcases bs with _ | ⟨b0, _ | ⟨b1, _ | ⟨b2, _ | ⟨b3, rest⟩⟩⟩⟩ <;>
    simp only [readU32, Except.error.injEq, reduceCtorEq] at h
  all_goals exact h.symm

theorem readF32_err (bs : Bytes) (e : Err) (h : readF32 bs = .error e) :
    e = .truncated := by
  rcases bs with _ | ⟨b0, _ | ⟨b1, _ | ⟨b2, _ | ⟨b3, rest⟩⟩⟩⟩ <;>
    simp only [readF32, Except.error.injEq, reduceCtorEq] at h
  all_goals exact h.symm

theorem readBytes_err (n : Nat) (bs : Bytes) (e : Err)
    (h : readBytes n bs = .error e) : e = .truncated := by
  by_cases hn : n ≤ bs.length
  · rw [readBytes, if_pos hn] at h
    exact absurd h (by simp)
  · rw [readBytes, if_neg hn] at h
    injection h with h1
    exact h1.symm

theorem readDroppedItem_err (bs : Bytes) (e : Err)
    (h : readDroppedItem bs = .error e) : e = .truncated := by
  rw [readDroppedItem] at h
  cases h1 : readU16 bs with
  | error e1 =>
    rw [h1, error_bind] at h
    injection h with hh
    exact hh ▸ readU16_err bs e1 h1
  | ok p =>
    obtain ⟨id, bsA⟩ := p
    rw [h1, ok_bind] at h
    simp only [] at h
    cases h2 : readF32 bsA with
    | error e1 =>
      rw [h2, error_bind] at h
      injection h with hh
      exact hh ▸ readF32_err bsA e1 h2
    | ok p =>
      obtain ⟨x, bsB⟩ := p
      rw [h2, ok_bind] at h
      simp only [] at h
      cases h3 : readF32 bsB with
      | error e1 =>
        rw [h3, error_bind] at h
        injection h with hh
        exact hh ▸ readF32_err bsB e1 h3
      | ok p =>
        obtain ⟨y, bsC⟩ := p
        rw [h3, ok_bind] at h
        simp only [] at h
        cases h4 : readU8 bsC with
        | error e1 =>
          rw [h4, error_bind] at h
          injection h with hh
          exact hh ▸ readU8_err bsC e1 h4
        | ok p =>
          obtain ⟨count, bsD⟩ := p
          rw [h4, ok_bind] at h
          simp only [] at h
          cases h5 : readU8 bsD with
          | error e1 =>
            rw [h5, error_bind] at h
            injection h with hh
            exact hh ▸ readU8_err bsD e1 h5
          | ok p =>
            obtain ⟨flags, bsE⟩ := p
            rw [h5, ok_bind] at h
            simp only [] at h
            cases h6 : readU32 bsE with
            | error e1 =>
              rw [h6, error_bind] at h
              injection h with hh
              exact hh ▸ readU32_err bsE e1 h6
            | ok p =>
              obtain ⟨uid, bsF⟩ := p
              rw [h6, ok_bind] at h
              simp only [reduceCtorEq] at h

theorem readDroppedLoop_err :
    ∀ (n : Nat) (bs : Bytes) (items : List DroppedItem) (e : Err),
      readDroppedLoop n bs = (items, .error e) → e = .truncated := by
  intro n
  induction n with
  | zero =>
    intro bs items e h
    rw [show readDroppedLoop 0 bs = ([], .ok bs) from rfl] at h
    simp only [Prod.mk.injEq, reduceCtorEq, and_false] at h
  | succ n ih =>
    intro bs items e h
    rw [show readDroppedLoop (n + 1) bs =
        (match readDroppedItem bs with
          | .error e => ([], .error e)
          | .ok (it, bs1) =>
            let p := readDroppedLoop n bs1
            (it :: p.1, p.2)) from rfl] at h
    cases h1 : readDroppedItem bs with
    | error e1 =>
      rw [h1] at h
      simp only [Prod.mk.injEq, Except.error.injEq] at h
      exact h.2 ▸ readDroppedItem_err bs e1 h1
    | ok p =>
      obtain ⟨it, bs1⟩ := p
      rw [h1] at h
      simp only [] at h
      cases h2 : readDroppedLoop n bs1 with
      | mk its r =>
        rw [h2] at h
        simp only [Prod.mk.injEq] at h
        exact ih bs1 its e (by rw [h2, h.2])

theorem tileLoop_err :
    ∀ (n : Nat) (ext : ExtDeps) (w : World) (bs : Bytes) (i : Nat)
      (w2 : World) (e : Err),
      World.tileLoop ext w bs i n = (w2, .error e) → e ≠ .panicked →
      w2.is_error = true := by
  intro n
  induction n with
  | zero =>
    intro ext w bs i w2 e h hp
    rw [show World.tileLoop ext w bs i 0 = (w, .ok bs) from rfl] at h
    simp only [Prod.mk.injEq, reduceCtorEq, and_false] at h
  | succ n ih =>
    intro ext w bs i w2 e h hp
    rw [show World.tileLoop ext w bs i (n + 1) =
        (if w.width = 0 then (w, .error .panicked)
         else
          match w.update_tile
              (Tile.new 0 0 0 TileFlags.empty 0 (i % w.width) (i / w.width))
              bs false ext with
          | (w1, .error .panicked) => (w1, .error .panicked)
          | (w1, .error e) => ({ w1 with is_error := true }, .error e)
          | (w1, .ok bs1) => World.tileLoop ext w1 bs1 (i + 1) n) from
      rfl] at h
    by_cases hw : w.width = 0
    · rw [if_pos hw] at h
      simp only [Prod.mk.injEq, Except.error.injEq] at h
      exact absurd h.2.symm hp
    · rw [if_neg hw] at h
      cases hu : w.update_tile
          (Tile.new 0 0 0 TileFlags.empty 0 (i % w.width) (i / w.width)) bs
          false ext with
      | mk w1 r =>
        rw [hu] at h
        cases r with
        | error e1 =>
          cases e1 <;> simp only [Prod.mk.injEq, Except.error.injEq] at h
          all_goals first | exact absurd h.2.symm hp | exact h.1 ▸ rfl
        | ok bs1 =>
          simp only [] at h
          exact ih ext w1 bs1 (i + 1) w2 e h hp

theorem parseHeader_err (w : World) (bs : Bytes) (w2 : World) (e : Err)
    (h : w.parseHeader bs = (w2, .error e)) (ht : e ≠ .truncated) :
    w2.is_error = true := by
  rw [World.parseHeader] at h
  cases h1 : readU16 bs with
  | error e1 =>
    rw [h1] at h
    simp only [Prod.mk.injEq, Except.error.injEq] at h
    exact absurd (h.2 ▸ readU16_err bs e1 h1) ht
  | ok p =>
    obtain ⟨version, bsA⟩ := p
    rw [h1] at h
    simp only [] at h
    by_cases hv : version < 0x19
    · rw [if_pos hv] at h
      simp only [Prod.mk.injEq, Except.error.injEq] at h
      exact h.1 ▸ rfl
    · rw [if_neg hv] at h
      cases h2 : readU32 bsA with
      | error e1 =>
        rw [h2] at h
        simp only [Prod.mk.injEq, Except.error.injEq] at h
        exact absurd (h.2 ▸ readU32_err bsA e1 h2) ht
      | ok p =>
        obtain ⟨flags, bsB⟩ := p
        rw [h2] at h
        simp only [] at h
        cases h3 : readU16 bsB with
        | error e1 =>
          rw [h3] at h
          simp only [Prod.mk.injEq, Except.error.injEq] at h
          exact absurd (h.2 ▸ readU16_err bsB e1 h3) ht
        | ok p =>
          obtain ⟨str_len, bsC⟩ := p
          rw [h3] at h
          simp only [] at h
          cases h4 : readBytes str_len bsC with
          | error e1 =>
            rw [h4] at h
            simp only [Prod.mk.injEq, Except.error.injEq] at h
            exact absurd (h.2 ▸ readBytes_err str_len bsC e1 h4) ht
          | ok p =>
            obtain ⟨name, bsD⟩ := p
            rw [h4] at h
            simp only [] at h
            cases h5 : readU32 bsD with
            | error e1 =>
              rw [h5] at h
              simp only [Prod.mk.injEq, Except.error.injEq] at h
              exact absurd (h.2 ▸ readU32_err bsD e1 h5) ht
            | ok p =>
              obtain ⟨width, bsE⟩ := p
              rw [h5] at h
              simp only [] at h
              cases h6 : readU32 bsE with
              | error e1 =>
                rw [h6] at h
                simp only [Prod.mk.injEq, Except.error.injEq] at h
                exact absurd (h.2 ▸ readU32_err bsE e1 h6) ht
              | ok p =>
                obtain ⟨height, bsF⟩ := p
                rw [h6] at h
                simp only [] at h
                cases h7 : readU32 bsF with
                | error e1 =>
                  rw [h7] at h
                  simp only [Prod.mk.injEq, Except.error.injEq] at h
                  exact absurd (h.2 ▸ readU32_err bsF e1 h7) ht
                | ok p =>
                  obtain ⟨tc, bsG⟩ := p
                  rw [h7] at h
                  simp only [] at h
                  by_cases hg : tc > 0xFE01
                  · rw [if_pos hg] at h
                    simp only [Prod.mk.injEq, Except.error.injEq] at h
                    exact h.1 ▸ rfl
                  · rw [if_neg hg] at h
                    simp only [Prod.mk.injEq, reduceCtorEq, and_false] at h

/-! ## C3: the error flag on failing parses -/

/-- C3 counterexample: parsing the empty buffer fails (header truncation)
yet the returned World has is_error = false, contradicting the claim that
every failing parse leaves the flag set. -/
theorem parse_error_flag_cex :
    (World.new.parse [] extMinimal).2 = .error .truncated ∧
      (World.new.parse [] extMinimal).1.is_error = false :=
  ⟨rfl, rfl⟩

/-- Any returned parse error other than a truncation has the flag set. -/
theorem parse_nontruncated_err_flag (w0 : World) (data : Bytes) (ext : ExtDeps)
    (w : World) (e : Err) (h : w0.parse data ext = (w, .error e))
    (ht : e ≠ .truncated) (hp : e ≠ .panicked) : w.is_error = true := by
  rw [World.parse] at h
  cases hH : w0.reset.parseHeader data with
  | mk w1 r =>
    rw [hH] at h
    cases r with
    | error e1 =>
      simp only [Prod.mk.injEq, Except.error.injEq] at h
      exact h.1 ▸ parseHeader_err w0.reset data w1 e1 hH
        (fun hh => ht (by rw [← h.2, hh]))
    | ok bs1 =>
      simp only [] at h
      cases hL : World.tileLoop ext w1 bs1 0 w1.tile_count with
      | mk w2 r2 =>
        rw [hL] at h
        cases r2 with
        | error e1 =>
          simp only [Prod.mk.injEq, Except.error.injEq] at h
          exact h.1 ▸ tileLoop_err w1.tile_count ext w1 bs1 0 w2 e1 hL
            (fun hh => hp (by rw [← h.2, hh]))
        | ok bs2 =>
          simp only [] at h
          cases hc : readU32 (skip 12 bs2) with
          | error e1 =>
            rw [hc] at h
            simp only [Prod.mk.injEq, Except.error.injEq] at h
            exact absurd (by rw [← h.2, readU32_err _ e1 hc]) ht
          | ok p =>
            obtain ⟨cnt, bs3⟩ := p
            rw [hc] at h
            simp only [] at h
            cases hu2 : readU32 bs3 with
            | error e1 =>
              rw [hu2] at h
              simp only [Prod.mk.injEq, Except.error.injEq] at h
              exact absurd (by rw [← h.2, readU32_err _ e1 hu2]) ht
            | ok p =>
              obtain ⟨uid, bs4⟩ := p
              rw [hu2] at h
              simp only [] at h
              cases hDL : readDroppedLoop cnt bs4 with
              | mk items r3 =>
                rw [hDL] at h
                cases r3 with
                | error e1 =>
                  simp only [Prod.mk.injEq, Except.error.injEq] at h
                  exact absurd
                    (by rw [← h.2, readDroppedLoop_err cnt bs4 items e1 hDL])
                    ht
                | ok bs5 =>
                  simp only [] at h
                  cases hb : readU16 bs5 with
                  | error e1 =>
                    rw [hb] at h
                    simp only [Prod.mk.injEq, Except.error.injEq] at h
                    exact absurd (by rw [← h.2, readU16_err _ e1 hb]) ht
                  | ok p =>
                    obtain ⟨bw, bs6⟩ := p
                    rw [hb] at h
                    simp only [] at h
                    cases hu3 : readU16 bs6 with
                    | error e1 =>
                      rw [hu3] at h
                      simp only [Prod.mk.injEq, Except.error.injEq] at h
                      exact absurd (by rw [← h.2, readU16_err _ e1 hu3]) ht
                    | ok p =>
                      obtain ⟨uw, bs7⟩ := p
                      rw [hu3] at h
                      simp only [] at h
                      cases hcw : readU16 bs7 with
                      | error e1 =>
                        rw [hcw] at h
                        simp only [Prod.mk.injEq, Except.error.injEq] at h
                        exact absurd (by rw [← h.2, readU16_err _ e1 hcw]) ht
                      | ok p =>
                        obtain ⟨cw, bs8⟩ := p
                        rw [hcw] at h
                        simp only [Prod.mk.injEq, reduceCtorEq, and_false]
                          at h

/-- Header-phase truncation leaves the error flag exactly as it was. -/
theorem parseHeader_truncated_preserves (w : World) (bs : Bytes) (w2 : World)
    (e : Err) (h : w.parseHeader bs = (w2, .error e)) (het : e = .truncated) :
    w2.is_error = w.is_error := by
  rw [World.parseHeader] at h
  cases h1 : readU16 bs with
  | error e1 =>
    rw [h1] at h
    simp only [Prod.mk.injEq, Except.error.injEq] at h
    exact h.1 ▸ rfl
  | ok p =>
    obtain ⟨version, bsA⟩ := p
    rw [h1] at h
    simp only [] at h
    by_cases hv : version < 0x19
    · rw [if_pos hv] at h
      simp only [Prod.mk.injEq, Except.error.injEq] at h
      exact Err.noConfusion (h.2.trans het)
    · rw [if_neg hv] at h
      cases h2 : readU32 bsA with
      | error e1 =>
        rw [h2] at h
        simp only [Prod.mk.injEq, Except.error.injEq] at h
        exact h.1 ▸ rfl
      | ok p =>
        obtain ⟨flags, bsB⟩ := p
        rw [h2] at h
        simp only [] at h
        cases h3 : readU16 bsB with
        | error e1 =>
          rw [h3] at h
          simp only [Prod.mk.injEq, Except.error.injEq] at h
          exact h.1 ▸ rfl
        | ok p =>
          obtain ⟨str_len, bsC⟩ := p
          rw [h3] at h
          simp only [] at h
          cases h4 : readBytes str_len bsC with
          | error e1 =>
            rw [h4] at h
            simp only [Prod.mk.injEq, Except.error.injEq] at h
            exact h.1 ▸ rfl
          | ok p =>
            obtain ⟨name, bsD⟩ := p
            rw [h4] at h
            simp only [] at h
            cases h5 : readU32 bsD with
            | error e1 =>
              rw [h5] at h
              simp only [Prod.mk.injEq, Except.error.injEq] at h
              exact h.1 ▸ rfl
            | ok p =>
              obtain ⟨width, bsE⟩ := p
              rw [h5] at h
              simp only [] at h
              cases h6 : readU32 bsE with
              | error e1 =>
                rw [h6] at h
                simp only [Prod.mk.injEq, Except.error.injEq] at h
                exact h.1 ▸ rfl
              | ok p =>
                obtain ⟨height, bsF⟩ := p
                rw [h6] at h
                simp only [] at h
                cases h7 : readU32 bsF with
                | error e1 =>
                  rw [h7] at h
                  simp only [Prod.mk.injEq, Except.error.injEq] at h
                  exact h.1 ▸ rfl
                | ok p =>
                  obtain ⟨tc, bsG⟩ := p
                  rw [h7] at h
                  simp only [] at h
                  by_cases hg : tc > 0xFE01
                  · rw [if_pos hg] at h
                    simp only [Prod.mk.injEq, Except.error.injEq] at h
                    exact Err.noConfusion (h.2.trans het)
                  · rw [if_neg hg] at h
                    simp only [Prod.mk.injEq, reduceCtorEq, and_false] at h

/-- When the header and the tile grid both succeed but parse still fails,
the failure is a truncation in the dropped-item or weather stages and the
error flag is whatever the grid left (those stages never touch it). -/
theorem parse_after_grid_truncated (w0 : World) (data : Bytes)
    (ext : ExtDeps) (w1 : World) (bs1 : Bytes) (w2 : World) (bs2 : Bytes)
    (w : World) (e : Err)
    (hH : w0.reset.parseHeader data = (w1, .ok bs1))
    (hL : World.tileLoop ext w1 bs1 0 w1.tile_count = (w2, .ok bs2))
    (hp : w0.parse data ext = (w, .error e)) :
    e = .truncated ∧ w.is_error = w2.is_error := by
  rw [World.parse, hH] at hp
  simp only [] at hp
  rw [hL] at hp
  simp only [] at hp
  cases hc : readU32 (skip 12 bs2) with
  | error e1 =>
    rw [hc] at hp
    simp only [Prod.mk.injEq, Except.error.injEq] at hp
    exact ⟨hp.2 ▸ readU32_err _ e1 hc, hp.1 ▸ rfl⟩
  | ok p =>
    obtain ⟨cnt, bs3⟩ := p
    rw [hc] at hp
    simp only [] at hp
    cases hu2 : readU32 bs3 with
    | error e1 =>
      rw [hu2] at hp
      simp only [Prod.mk.injEq, Except.error.injEq] at hp
      exact ⟨hp.2 ▸ readU32_err _ e1 hu2, hp.1 ▸ rfl⟩
    | ok p =>
      obtain ⟨uid, bs4⟩ := p
      rw [hu2] at hp
      simp only [] at hp
      cases hDL : readDroppedLoop cnt bs4 with
      | mk items r3 =>
        rw [hDL] at hp
        cases r3 with
        | error e1 =>
          simp only [Prod.mk.injEq, Except.error.injEq] at hp
          exact ⟨hp.2 ▸ readDroppedLoop_err cnt bs4 items e1 hDL,
            hp.1 ▸ rfl⟩
        | ok bs5 =>
          simp only [] at hp
          cases hb : readU16 bs5 with
          | error e1 =>
            rw [hb] at hp
            simp only [Prod.mk.injEq, Except.error.injEq] at hp
            exact ⟨hp.2 ▸ readU16_err _ e1 hb, hp.1 ▸ rfl⟩
          | ok p =>
            obtain ⟨bw, bs6⟩ := p
            rw [hb] at hp
            simp only [] at hp
            cases hu3 : readU16 bs6 with
            | error e1 =>
              rw [hu3] at hp
              simp only [Prod.mk.injEq, Except.error.injEq] at hp
              exact ⟨hp.2 ▸ readU16_err _ e1 hu3, hp.1 ▸ rfl⟩
            | ok p =>
              obtain ⟨uw, bs7⟩ := p
              rw [hu3] at hp
              simp only [] at hp
              cases hcw : readU16 bs7 with
              | error e1 =>
                rw [hcw] at hp
                simp only [Prod.mk.injEq, Except.error.injEq] at hp
                exact ⟨hp.2 ▸ readU16_err _ e1 hcw, hp.1 ▸ rfl⟩
              | ok p =>
                obtain ⟨cw, bs8⟩ := p
                rw [hcw] at hp
                simp only [Prod.mk.injEq, reduceCtorEq, and_false] at hp

/-- C3 (amended): a failing parse leaves is_error = true for the version
check, the tile-count guard, every other non-truncation returned error
(part 1), and every non-panic failure inside the tile loop, cursor
truncation included (part 2, which also shows that loop failure is exactly
what parse returns); but truncated-read failures in the header fields
(part 3) and in the dropped-item section or weather trailer (part 4) return
an error while leaving is_error = false. -/
theorem parse_error_flag_amended :
    (∀ (w0 : World) (data : Bytes) (ext : ExtDeps) (w : World) (e : Err),
        w0.parse data ext = (w, .error e) → e ≠ .truncated →
        e ≠ .panicked → w.is_error = true) ∧
      (∀ (w0 : World) (data : Bytes) (ext : ExtDeps) (w1 : World)
          (bs1 : Bytes) (w2 : World) (e : Err),
        w0.reset.parseHeader data = (w1, .ok bs1) →
        World.tileLoop ext w1 bs1 0 w1.tile_count = (w2, .error e) →
        e ≠ .panicked →
        w0.parse data ext = (w2, .error e) ∧ w2.is_error = true) ∧
      (∀ (w0 : World) (data : Bytes) (ext : ExtDeps) (w : World),
        w0.reset.parseHeader data = (w, .error .truncated) →
        w0.parse data ext = (w, .error .truncated) ∧ w.is_error = false) ∧
      (∀ (w0 : World) (data : Bytes) (ext : ExtDeps) (w1 : World)
          (bs1 : Bytes) (w2 : World) (bs2 : Bytes) (w : World) (e : Err),
        w0.reset.parseHeader data = (w1, .ok bs1) →
        World.tileLoop ext w1 bs1 0 w1.tile_count = (w2, .ok bs2) →
        w0.parse data ext = (w, .error e) →
        e = .truncated ∧ w.is_error = false) := by
  refine ⟨parse_nontruncated_err_flag, ?_, ?_, ?_⟩
  · intro w0 data ext w1 bs1 w2 e hH hL hp
    constructor
    · rw [World.parse, hH]
      simp only []
      rw [hL]
    · exact tileLoop_err w1.tile_count ext w1 bs1 0 w2 e hL hp
  · intro w0 data ext w hH
    refine ⟨by rw [World.parse, hH], ?_⟩
    rw [parseHeader_truncated_preserves w0.reset data w .truncated hH rfl]
    rfl
  · intro w0 data ext w1 bs1 w2 bs2 w e hH hL hp
    obtain ⟨he, hflag⟩ :=
      parse_after_grid_truncated w0 data ext w1 bs1 w2 bs2 w e hH hL hp
    refine ⟨he, ?_⟩
    rw [hflag]
    obtain ⟨L, -, hw2⟩ :=
      tileLoop_ok_tiles w1.tile_count ext w1 bs1 0 w2 bs2 hL
    rw [hw2]
    show w1.is_error = false
    rw [(parseHeader_ok w0.reset data w1 bs1 hH).2.2]
    rfl

/-- A 33-byte input: a valid minimal header plus one zero tile record and
nothing after the grid, so the dropped-item count read truncates. -/
def truncTailBuffer : Bytes :=
  [25, 0] ++ [0, 0, 0, 0] ++ [0, 0] ++
  [1, 0, 0, 0] ++ [1, 0, 0, 0] ++ [1, 0, 0, 0] ++ [0, 0, 0, 0, 0] ++
  [0, 0, 0, 0, 0, 0, 0, 0]

/-- The same header followed by a tile record with foreground id 11, which
exceeds the witness catalog item_count of 10. -/
def badIdBuffer : Bytes :=
  [25, 0] ++ [0, 0, 0, 0] ++ [0, 0] ++
  [1, 0, 0, 0] ++ [1, 0, 0, 0] ++ [1, 0, 0, 0] ++ [0, 0, 0, 0, 0] ++
  [11, 0, 0, 0, 0, 0, 0, 0]

def truncTailWorld : World := { minHeaderWorld with tiles := [minimalTile] }

def badIdWorld : World :=
  { minHeaderWorld with is_error := true, tiles := [minimalTile] }

theorem parse_error_flag_amended_witness :
    (World.new.parse [0, 0] extMinimal).1.is_error = true ∧
      (World.new.parse badIdBuffer extMinimal =
          (badIdWorld, .error .invalidItemId) ∧
        badIdWorld.is_error = true) ∧
      (World.new.parse [] extMinimal =
          (World.new.reset, .error .truncated) ∧
        World.new.reset.is_error = false) ∧
      (Err.truncated = Err.truncated ∧ truncTailWorld.is_error = false) :=
  ⟨parse_error_flag_amended.1 World.new [0, 0] extMinimal
      (World.new.parse [0, 0] extMinimal).1 .unsupportedVersion (by rfl)
      (by decide) (by decide),
    parse_error_flag_amended.2.1 World.new badIdBuffer extMinimal
      minHeaderWorld [11, 0, 0, 0, 0, 0, 0, 0] badIdWorld .invalidItemId rfl
      rfl (by decide),
    parse_error_flag_amended.2.2.1 World.new [] extMinimal World.new.reset
      rfl,
    parse_error_flag_amended.2.2.2 World.new truncTailBuffer extMinimal
      minHeaderWorld [0, 0, 0, 0, 0, 0, 0, 0] truncTailWorld []
      truncTailWorld .truncated rfl rfl rfl⟩

/-! ## C2: grid shape after a successful parse -/

/-- C2: whenever parse succeeds and the parsed tile_count equals
width times height, the tile list has exactly tile_count entries and
get_tile x y is Some (the tile at row-major index y*width+x) exactly when
x < width and y < height, and None otherwise. -/
theorem parse_grid_shape (w0 : World) (data : Bytes) (ext : ExtDeps)
    (w : World) (h : w0.parse data ext = (w, .ok ()))
    (hgeom : w.tile_count = w.width * w.height) :
    w.tiles.length = w.tile_count ∧
      (∀ x y : Nat, x < w.width → y < w.height →
        w.get_tile x y = w.tiles.get? (y * w.width + x) ∧
          (w.get_tile x y).isSome = true) ∧
      (∀ x y : Nat, ¬(x < w.width ∧ y < w.height) →
        w.get_tile x y = none) := by
  obtain ⟨hlen, hceil⟩ := parse_ok_shape w0 data ext w h
  refine ⟨hlen, ?_, ?_⟩
  · intro x y hx hy
    have hidx : y * w.width + x < w.width * w.height := by
      calc y * w.width + x < y * w.width + w.width := by omega
        _ = (y + 1) * w.width := by ring
        _ ≤ w.height * w.width := Nat.mul_le_mul_right _ (by omega)
        _ = w.width * w.height := Nat.mul_comm _ _
    have hlt32 : y * w.width + x < 4294967296 := by
      have hwh : w.width * w.height ≤ 0xFE01 := hgeom ▸ hceil
      omega
    have hmod : (y * w.width + x) % 4294967296 = y * w.width + x :=
      Nat.mod_eq_of_lt hlt32
    have hin : ¬(x ≥ w.width ∨ y ≥ w.height) := by omega
    have hlt : y * w.width + x < w.tiles.length := by
      rw [hlen, hgeom]; exact hidx
    refine ⟨by rw [World.get_tile, if_neg hin, hmod], ?_⟩
    rw [World.get_tile, if_neg hin, hmod, List.get?_eq_getElem?,
      List.getElem?_eq_getElem hlt]
    rfl
  · intro x y hxy
    rw [World.get_tile, if_pos (by omega)]

def minW0 : World :=
  minimalWorld (WeatherType.fromU16 (0 + 256 * 0))
    (WeatherType.fromU16 (0 + 256 * 0))

theorem parse_grid_shape_witness :
    minW0.tiles.length = minW0.tile_count ∧
      (∀ x y : Nat, x < minW0.width → y < minW0.height →
        minW0.get_tile x y = minW0.tiles.get? (y * minW0.width + x) ∧
          (minW0.get_tile x y).isSome = true) ∧
      (∀ x y : Nat, ¬(x < minW0.width ∧ y < minW0.height) →
        minW0.get_tile x y = none) :=
  parse_grid_shape World.new (minimalBuffer 0 0 0 0 0 0) extMinimal minW0
    (parse_minimalBuffer 0 0 0 0 0 0) rfl
